import Mathlib

/-!
Verification development for the Aerofly FS4 bridge DLL
(`aerofly_bridge_dll.cpp`).  Each section shallowly embeds one part of the
source: machine doubles are embedded as the `FpVal` type, which keeps finite
values exact (as rationals) and represents NaN and the infinities explicitly,
so that the IEEE behaviour the decode paths observe — NaN propagating through
`+` and failing every ordered comparison — is captured; the fixed
shared-memory record is modelled by the slots each property touches; stateful
code becomes explicit state passing, and the per-tick write sequence of the
shared record becomes an explicit event trace.
-/

set_option linter.unusedVariables false

namespace AeroflyBridge

/-! ## Machine doubles

A double, as far as the bridge code observes it: a finite value (kept exact),
NaN, or an infinity.  Overflow of `+` on finite values to an infinity is not
modelled (finite results stay exact); on the only embedded path that adds
doubles, a range clamp follows the addition and maps every out-of-range finite
value and both infinities into `[0, 1]`, so no conclusion depends on where
overflow begins. -/

/-- A machine double: a finite value (kept exact, as a rational) or one of the
non-finite values. -/
inductive FpVal where
  | finite (q : ℚ)
  | nan
  | posInf
  | negInf
  deriving DecidableEq, Repr

/-- `FpVal.isFinite v` is `true` on `finite q` only. -/
def FpVal.isFinite : FpVal → Bool
  | .finite _ => true
  | _ => false

/-- IEEE addition on the embedded doubles: NaN propagates, opposite infinities
give NaN, an infinity absorbs finite values, finite values add exactly. -/
def FpVal.add : FpVal → FpVal → FpVal
  | .nan, _ => .nan
  | _, .nan => .nan
  | .posInf, .negInf => .nan
  | .negInf, .posInf => .nan
  | .posInf, _ => .posInf
  | _, .posInf => .posInf
  | .negInf, _ => .negInf
  | _, .negInf => .negInf
  | .finite a, .finite b => .finite (a + b)

/-- The IEEE comparison `v < 0.0`: false on NaN (every ordered comparison with
NaN is false). -/
def FpVal.ltZero : FpVal → Bool
  | .finite q => decide (q < 0)
  | .negInf => true
  | .posInf => false
  | .nan => false

/-- The IEEE comparison `v > 1.0`: false on NaN. -/
def FpVal.gtOne : FpVal → Bool
  | .finite q => decide (q > 1)
  | .posInf => true
  | .negInf => false
  | .nan => false

/-- `true` iff the value is a finite value in `[0, 1]` (NaN and the infinities
are not). -/
def FpVal.inUnitInterval : FpVal → Bool
  | .finite q => decide (0 ≤ q ∧ q ≤ 1)
  | .nan => false
  | .posInf => false
  | .negInf => false

/-! ## Step controls (`SharedMemoryInterface::ProcessStepControl`)

Source lines 1982–2017.  The message value and the stored scalar are machine
doubles; both range checks of the source are IEEE comparisons, so a NaN value
fails both and passes through the clamp unchanged. -/

/-- The pair of storage locations `ProcessStepControl` writes: the dedicated
struct field (`storage_field`, e.g. `pData->c172_left_door`) and the scalar
array slot (`pData->all_variables[variable_index]`). -/
structure StepSlot where
  field : FpVal
  slot : FpVal
  deriving DecidableEq, Repr

/-- The two sequential range checks of the source:
`if (new_value < 0.0) new_value = 0.0; if (new_value > 1.0) new_value = 1.0;`.
On NaN both tests are false and NaN is returned unchanged; `-inf` becomes `0`
and `+inf` becomes `1`. -/
def clampNewValue (x : FpVal) : FpVal :=
  let x1 := if x.ltZero then .finite 0 else x
  if x1.gtOne then .finite 1 else x1

/-- `SharedMemoryInterface::ProcessStepControl`: when `tm_msg_flag::Step` is
set, the message value is added to the current struct-field value and the two
range checks are applied; in absolute mode the message value itself goes
through the range checks; the result is written to both locations. -/
def processStepControl (stepFlag : Bool) (msgValue : FpVal) (s : StepSlot) : StepSlot :=
  let newValue :=
    if stepFlag then clampNewValue (s.field.add msgValue)
    else clampNewValue msgValue
  { field := newValue, slot := newValue }

/-- Applying a list of step-delta messages to a slot, oldest first. -/
def applyStepDeltas (deltas : List FpVal) (s : StepSlot) : StepSlot :=
  deltas.foldl (fun cur d => processStepControl true d cur) s

/-- The successive stored values observed after each delta of the list. -/
def stepValueTrace (deltas : List FpVal) (s : StepSlot) : List FpVal :=
  ((deltas.scanl (fun cur d => processStepControl true d cur) s).tail).map StepSlot.field

/-- The zero-initialized slot (the shared record is zeroed at `Initialize`;
all-zero bytes are the double `+0.0`). -/
def zeroSlot : StepSlot := { field := .finite 0, slot := .finite 0 }

/-! ## Update sequencing (`SharedMemoryInterface::UpdateData`)

Source lines 2851–2872.  We record the order of the writes the function
performs on the shared `AeroflyBridgeData` record as a list of events; the
per-message mutations (one `ProcessMessage` call per received message whose
handler writes the record) are identified by the message hash. -/

/-- One write performed by `UpdateData` on the shared record. -/
inductive SnapWrite where
  | dataValid (v : Nat)
  | timestampUs
  | updateCounter
  | mutation (hash : Nat)
  deriving DecidableEq, Repr

/-- The write sequence of `UpdateData`, in source order:
`pData->data_valid = 0;`, then `pData->timestamp_us = get_time_us();`, then
`pData->update_counter++;`, then the `ProcessMessage` loop (mutations in
message order), and finally `pData->data_valid = 1;`.  `muts` lists the hashes
of the messages whose handler mutates the record. -/
def updateDataTrace (muts : List Nat) : List SnapWrite :=
  .dataValid 0 :: .timestampUs :: .updateCounter ::
    (muts.map .mutation ++ [.dataValid 1])

/-- `true` iff every `mutation` event of the trace happens at a point where the
most recently written `data_valid` value is `0`; `v` is the value of
`data_valid` on entry to the trace. -/
def mutationsGuarded (v : Nat) : List SnapWrite → Bool
  | [] => true
  | .dataValid w :: rest => mutationsGuarded w rest
  | .mutation _ :: rest => v == 0 && mutationsGuarded v rest
  | .timestampUs :: rest => mutationsGuarded v rest
  | .updateCounter :: rest => mutationsGuarded v rest

/-! ## Scalar message handlers (`SharedMemoryInterface::InitializeHandlers`)

Source lines 2101 ff.  Every scalar value handler reads the message double and
stores it verbatim: `const double val = msg.GetDouble();
pData->all_variables[i] = val;` (plus, for most variables, the mirror struct
field).  There is no finiteness check anywhere on this path, so NaN
propagation is exactly what `FpVal` captures. -/

/-- The body of a scalar value handler applied to slot `idx` of the scalar
array `all_variables`: the message value is written into the addressed slot
unchanged. -/
def applyScalarHandler (snap : List FpVal) (idx : Nat) (v : FpVal) : List FpVal :=
  snap.set idx v

/-! ## Variable registry (`VariableMapper`, `MESSAGE_LIST`)

Source lines 1141–1576 (mapper) and 1584 ff. (message table).  The mapper owns
two hash maps; the constructor fills `name_to_index` with 357 insertions and
leaves `hash_to_index` untouched (its only writes would come after the
`MESSAGE_LIST` definitions, and no such code exists).  `GetIndex` returns `-1`
on a missed lookup, for both overloads. -/

/-- Data type column of a `MESSAGE_LIST` row (`tm_msg_data_type`). -/
inductive MsgDataType where
  | double
  | string
  | vector2d
  | vector3d
  | vector4d
  | noneType
  deriving DecidableEq, Repr

/-- Primary flag column of a `MESSAGE_LIST` row (`tm_msg_flag`). -/
inductive MsgFlag where
  | value
  | event
  | toggle
  | active
  | step
  | move
  | offset
  | noneFlag
  deriving DecidableEq, Repr

/-- Access column of a `MESSAGE_LIST` row (`tm_msg_access`). -/
inductive MsgAccess where
  | read
  | write
  | readWrite
  | noneAccess
  deriving DecidableEq, Repr

/-- One row of the `MESSAGE_LIST` table: the C++ message object name (without
the leading `Message` part), the simulator variable name, and the data type,
primary flag and access columns. -/
structure RegEntry where
  cppName : String
  varName : String
  dataType : MsgDataType
  flag : MsgFlag
  access : MsgAccess
  deriving DecidableEq, Repr

/-- Rows 0–39 of `messageList` (split into chunks of 40 rows
only to keep elaboration of the literal cheap; the concatenation below is the
table). -/
def messageListChunk0 : List RegEntry := [
  ⟨"AircraftUniversalTime", "Aircraft.UniversalTime", .double, .value, .read⟩,
  ⟨"AircraftAltitude", "Aircraft.Altitude", .double, .value, .read⟩,
  ⟨"AircraftVerticalSpeed", "Aircraft.VerticalSpeed", .double, .value, .read⟩,
  ⟨"AircraftPitch", "Aircraft.Pitch", .double, .value, .read⟩,
  ⟨"AircraftBank", "Aircraft.Bank", .double, .value, .read⟩,
  ⟨"AircraftIndicatedAirspeed", "Aircraft.IndicatedAirspeed", .double, .value, .read⟩,
  ⟨"AircraftIndicatedAirspeedTrend", "Aircraft.IndicatedAirspeedTrend", .double, .value, .read⟩,
  ⟨"AircraftGroundSpeed", "Aircraft.GroundSpeed", .double, .value, .read⟩,
  ⟨"AircraftMagneticHeading", "Aircraft.MagneticHeading", .double, .value, .read⟩,
  ⟨"AircraftTrueHeading", "Aircraft.TrueHeading", .double, .value, .read⟩,
  ⟨"AircraftLatitude", "Aircraft.Latitude", .double, .value, .read⟩,
  ⟨"AircraftLongitude", "Aircraft.Longitude", .double, .value, .read⟩,
  ⟨"AircraftHeight", "Aircraft.Height", .double, .value, .read⟩,
  ⟨"AircraftPosition", "Aircraft.Position", .vector3d, .value, .read⟩,
  ⟨"AircraftOrientation", "Aircraft.Orientation", .double, .value, .read⟩,
  ⟨"AircraftVelocity", "Aircraft.Velocity", .vector3d, .value, .read⟩,
  ⟨"AircraftAngularVelocity", "Aircraft.AngularVelocity", .vector3d, .value, .read⟩,
  ⟨"AircraftAcceleration", "Aircraft.Acceleration", .vector3d, .value, .read⟩,
  ⟨"AircraftGravity", "Aircraft.Gravity", .vector3d, .value, .read⟩,
  ⟨"AircraftWind", "Aircraft.Wind", .vector3d, .value, .read⟩,
  ⟨"AircraftRateOfTurn", "Aircraft.RateOfTurn", .double, .value, .read⟩,
  ⟨"AircraftMachNumber", "Aircraft.MachNumber", .double, .value, .read⟩,
  ⟨"AircraftAngleOfAttack", "Aircraft.AngleOfAttack", .double, .value, .read⟩,
  ⟨"AircraftAngleOfAttackLimit", "Aircraft.AngleOfAttackLimit", .double, .value, .read⟩,
  ⟨"AircraftAccelerationLimit", "Aircraft.AccelerationLimit", .double, .value, .read⟩,
  ⟨"AircraftGear", "Aircraft.Gear", .double, .value, .read⟩,
  ⟨"AircraftFlaps", "Aircraft.Flaps", .double, .value, .read⟩,
  ⟨"AircraftSlats", "Aircraft.Slats", .double, .value, .read⟩,
  ⟨"AircraftThrottle", "Aircraft.Throttle", .double, .value, .read⟩,
  ⟨"AircraftAirBrake", "Aircraft.AirBrake", .double, .value, .read⟩,
  ⟨"AircraftGroundSpoilersArmed", "Aircraft.GroundSpoilersArmed", .double, .value, .read⟩,
  ⟨"AircraftGroundSpoilersExtended", "Aircraft.GroundSpoilersExtended", .double, .value, .read⟩,
  ⟨"AircraftParkingBrake", "Aircraft.ParkingBrake", .double, .value, .read⟩,
  ⟨"AircraftAutoBrakeSetting", "Aircraft.AutoBrakeSetting", .double, .value, .read⟩,
  ⟨"AircraftAutoBrakeEngaged", "Aircraft.AutoBrakeEngaged", .double, .value, .read⟩,
  ⟨"AircraftAutoBrakeRejectedTakeOff", "Aircraft.AutoBrakeRejectedTakeOff", .double, .value, .read⟩,
  ⟨"AircraftRadarAltitude", "Aircraft.RadarAltitude", .double, .value, .read⟩,
  ⟨"AircraftName", "Aircraft.Name", .string, .value, .read⟩,
  ⟨"AircraftNearestAirportIdentifier", "Aircraft.NearestAirportIdentifier", .string, .value, .read⟩,
  ⟨"AircraftNearestAirportName", "Aircraft.NearestAirportName", .string, .value, .read⟩
]

/-- Rows 40–79 of `messageList` (split into chunks of 40 rows
only to keep elaboration of the literal cheap; the concatenation below is the
table). -/
def messageListChunk1 : List RegEntry := [
  ⟨"AircraftNearestAirportLocation", "Aircraft.NearestAirportLocation", .vector2d, .value, .read⟩,
  ⟨"AircraftNearestAirportElevation", "Aircraft.NearestAirportElevation", .double, .value, .read⟩,
  ⟨"AircraftBestAirportIdentifier", "Aircraft.BestAirportIdentifier", .string, .value, .read⟩,
  ⟨"AircraftBestAirportName", "Aircraft.BestAirportName", .string, .value, .read⟩,
  ⟨"AircraftBestAirportLocation", "Aircraft.BestAirportLocation", .vector2d, .value, .read⟩,
  ⟨"AircraftBestAirportElevation", "Aircraft.BestAirportElevation", .double, .value, .read⟩,
  ⟨"AircraftBestRunwayIdentifier", "Aircraft.BestRunwayIdentifier", .string, .value, .read⟩,
  ⟨"AircraftBestRunwayElevation", "Aircraft.BestRunwayElevation", .double, .value, .read⟩,
  ⟨"AircraftBestRunwayThreshold", "Aircraft.BestRunwayThreshold", .vector3d, .value, .read⟩,
  ⟨"AircraftBestRunwayEnd", "Aircraft.BestRunwayEnd", .vector3d, .value, .read⟩,
  ⟨"AircraftCategoryJet", "Aircraft.Category.Jet", .double, .value, .read⟩,
  ⟨"AircraftCategoryGlider", "Aircraft.Category.Glider", .double, .value, .read⟩,
  ⟨"AircraftOnGround", "Aircraft.OnGround", .double, .value, .read⟩,
  ⟨"AircraftOnRunway", "Aircraft.OnRunway", .double, .value, .read⟩,
  ⟨"AircraftCrashed", "Aircraft.Crashed", .double, .value, .read⟩,
  ⟨"AircraftPower", "Aircraft.Power", .double, .value, .read⟩,
  ⟨"AircraftNormalizedPower", "Aircraft.NormalizedPower", .double, .value, .read⟩,
  ⟨"AircraftNormalizedPowerTarget", "Aircraft.NormalizedPowerTarget", .double, .value, .read⟩,
  ⟨"AircraftTrim", "Aircraft.Trim", .double, .value, .read⟩,
  ⟨"AircraftPitchTrim", "Aircraft.PitchTrim", .double, .value, .read⟩,
  ⟨"AircraftPitchTrimScaling", "Aircraft.PitchTrimScaling", .double, .value, .read⟩,
  ⟨"AircraftPitchTrimOffset", "Aircraft.PitchTrimOffset", .double, .value, .read⟩,
  ⟨"AircraftRudderTrim", "Aircraft.RudderTrim", .double, .value, .read⟩,
  ⟨"AircraftAutoPitchTrim", "Aircraft.AutoPitchTrim", .double, .value, .read⟩,
  ⟨"AircraftYawDamperEnabled", "Aircraft.YawDamperEnabled", .double, .value, .read⟩,
  ⟨"AircraftRudderPedalsDisconnected", "Aircraft.RudderPedalsDisconnected", .double, .value, .read⟩,
  ⟨"AircraftStarter", "Aircraft.Starter", .double, .value, .read⟩,
  ⟨"AircraftStarter1", "Aircraft.Starter1", .double, .value, .read⟩,
  ⟨"AircraftStarter2", "Aircraft.Starter2", .double, .value, .read⟩,
  ⟨"AircraftStarter3", "Aircraft.Starter3", .double, .value, .read⟩,
  ⟨"AircraftStarter4", "Aircraft.Starter4", .double, .value, .read⟩,
  ⟨"AircraftIgnition", "Aircraft.Ignition", .double, .value, .read⟩,
  ⟨"AircraftIgnition1", "Aircraft.Ignition1", .double, .value, .read⟩,
  ⟨"AircraftIgnition2", "Aircraft.Ignition2", .double, .value, .read⟩,
  ⟨"AircraftIgnition3", "Aircraft.Ignition3", .double, .value, .read⟩,
  ⟨"AircraftIgnition4", "Aircraft.Ignition4", .double, .value, .read⟩,
  ⟨"AircraftThrottleLimit", "Aircraft.ThrottleLimit", .double, .value, .read⟩,
  ⟨"AircraftReverse", "Aircraft.Reverse", .double, .value, .read⟩,
  ⟨"AircraftEngineMaster1", "Aircraft.EngineMaster1", .double, .value, .read⟩,
  ⟨"AircraftEngineMaster2", "Aircraft.EngineMaster2", .double, .value, .read⟩
]

/-- Rows 80–119 of `messageList` (split into chunks of 40 rows
only to keep elaboration of the literal cheap; the concatenation below is the
table). -/
def messageListChunk2 : List RegEntry := [
  ⟨"AircraftEngineMaster3", "Aircraft.EngineMaster3", .double, .value, .read⟩,
  ⟨"AircraftEngineMaster4", "Aircraft.EngineMaster4", .double, .value, .read⟩,
  ⟨"AircraftEngineThrottle1", "Aircraft.EngineThrottle1", .double, .value, .read⟩,
  ⟨"AircraftEngineThrottle2", "Aircraft.EngineThrottle2", .double, .value, .read⟩,
  ⟨"AircraftEngineThrottle3", "Aircraft.EngineThrottle3", .double, .value, .read⟩,
  ⟨"AircraftEngineThrottle4", "Aircraft.EngineThrottle4", .double, .value, .read⟩,
  ⟨"AircraftEngineRotationSpeed1", "Aircraft.EngineRotationSpeed1", .double, .value, .read⟩,
  ⟨"AircraftEngineRotationSpeed2", "Aircraft.EngineRotationSpeed2", .double, .value, .read⟩,
  ⟨"AircraftEngineRotationSpeed3", "Aircraft.EngineRotationSpeed3", .double, .value, .read⟩,
  ⟨"AircraftEngineRotationSpeed4", "Aircraft.EngineRotationSpeed4", .double, .value, .read⟩,
  ⟨"AircraftEngineRunning1", "Aircraft.EngineRunning1", .double, .value, .read⟩,
  ⟨"AircraftEngineRunning2", "Aircraft.EngineRunning2", .double, .value, .read⟩,
  ⟨"AircraftEngineRunning3", "Aircraft.EngineRunning3", .double, .value, .read⟩,
  ⟨"AircraftEngineRunning4", "Aircraft.EngineRunning4", .double, .value, .read⟩,
  ⟨"AircraftAPUAvailable", "Aircraft.APUAvailable", .double, .value, .read⟩,
  ⟨"PerformanceSpeedVS0", "Performance.Speed.VS0", .double, .value, .read⟩,
  ⟨"PerformanceSpeedVS1", "Performance.Speed.VS1", .double, .value, .read⟩,
  ⟨"PerformanceSpeedVFE", "Performance.Speed.VFE", .double, .value, .read⟩,
  ⟨"PerformanceSpeedVNO", "Performance.Speed.VNO", .double, .value, .read⟩,
  ⟨"PerformanceSpeedVNE", "Performance.Speed.VNE", .double, .value, .read⟩,
  ⟨"PerformanceSpeedVAPP", "Performance.Speed.VAPP", .double, .value, .read⟩,
  ⟨"PerformanceSpeedMinimum", "Performance.Speed.Minimum", .double, .value, .read⟩,
  ⟨"PerformanceSpeedMaximum", "Performance.Speed.Maximum", .double, .value, .read⟩,
  ⟨"PerformanceSpeedMinimumFlapRetraction", "Performance.Speed.MinimumFlapRetraction", .double, .value, .read⟩,
  ⟨"PerformanceSpeedMaximumFlapExtension", "Performance.Speed.MaximumFlapExtension", .double, .value, .read⟩,
  ⟨"ConfigurationSelectedTakeOffFlaps", "Configuration.SelectedTakeOffFlaps", .double, .value, .read⟩,
  ⟨"ConfigurationSelectedLandingFlaps", "Configuration.SelectedLandingFlaps", .double, .value, .read⟩,
  ⟨"FMSFlightNumber", "FlightManagementSystem.FlightNumber", .string, .value, .write⟩,
  ⟨"NavigationSelectedCourse1", "Navigation.SelectedCourse1", .double, .value, .readWrite⟩,
  ⟨"NavigationSelectedCourse2", "Navigation.SelectedCourse2", .double, .value, .readWrite⟩,
  ⟨"NavigationNAV1Identifier", "Navigation.NAV1Identifier", .string, .value, .read⟩,
  ⟨"NavigationNAV1Frequency", "Navigation.NAV1Frequency", .double, .value, .readWrite⟩,
  ⟨"NavigationNAV1StandbyFrequency", "Navigation.NAV1StandbyFrequency", .double, .value, .readWrite⟩,
  ⟨"NavigationNAV1FrequencySwap", "Navigation.NAV1FrequencySwap", .double, .event, .write⟩,
  ⟨"NavigationNAV2Identifier", "Navigation.NAV2Identifier", .string, .value, .read⟩,
  ⟨"NavigationNAV2Frequency", "Navigation.NAV2Frequency", .double, .value, .readWrite⟩,
  ⟨"NavigationNAV2StandbyFrequency", "Navigation.NAV2StandbyFrequency", .double, .value, .readWrite⟩,
  ⟨"NavigationNAV2FrequencySwap", "Navigation.NAV2FrequencySwap", .double, .event, .write⟩,
  ⟨"NavigationDME1Frequency", "Navigation.DME1Frequency", .double, .value, .readWrite⟩,
  ⟨"NavigationDME1Distance", "Navigation.DME1Distance", .double, .value, .readWrite⟩
]

/-- Rows 120–159 of `messageList` (split into chunks of 40 rows
only to keep elaboration of the literal cheap; the concatenation below is the
table). -/
def messageListChunk3 : List RegEntry := [
  ⟨"NavigationDME1Time", "Navigation.DME1Time", .double, .value, .readWrite⟩,
  ⟨"NavigationDME1Speed", "Navigation.DME1Speed", .double, .value, .readWrite⟩,
  ⟨"NavigationDME2Frequency", "Navigation.DME2Frequency", .double, .value, .readWrite⟩,
  ⟨"NavigationDME2Distance", "Navigation.DME2Distance", .double, .value, .readWrite⟩,
  ⟨"NavigationDME2Time", "Navigation.DME2Time", .double, .value, .readWrite⟩,
  ⟨"NavigationDME2Speed", "Navigation.DME2Speed", .double, .value, .readWrite⟩,
  ⟨"NavigationILS1Identifier", "Navigation.ILS1Identifier", .string, .value, .read⟩,
  ⟨"NavigationILS1Course", "Navigation.ILS1Course", .double, .value, .readWrite⟩,
  ⟨"NavigationILS1Frequency", "Navigation.ILS1Frequency", .double, .value, .readWrite⟩,
  ⟨"NavigationILS1StandbyFrequency", "Navigation.ILS1StandbyFrequency", .double, .value, .readWrite⟩,
  ⟨"NavigationILS1FrequencySwap", "Navigation.ILS1FrequencySwap", .double, .event, .write⟩,
  ⟨"NavigationILS2Identifier", "Navigation.ILS2Identifier", .string, .value, .read⟩,
  ⟨"NavigationILS2Course", "Navigation.ILS2Course", .double, .value, .readWrite⟩,
  ⟨"NavigationILS2Frequency", "Navigation.ILS2Frequency", .double, .value, .readWrite⟩,
  ⟨"NavigationILS2StandbyFrequency", "Navigation.ILS2StandbyFrequency", .double, .value, .readWrite⟩,
  ⟨"NavigationILS2FrequencySwap", "Navigation.ILS2FrequencySwap", .double, .event, .write⟩,
  ⟨"NavigationADF1Frequency", "Navigation.ADF1Frequency", .double, .value, .readWrite⟩,
  ⟨"NavigationADF1StandbyFrequency", "Navigation.ADF1StandbyFrequency", .double, .value, .readWrite⟩,
  ⟨"NavigationADF1FrequencySwap", "Navigation.ADF1FrequencySwap", .double, .event, .write⟩,
  ⟨"NavigationADF2Frequency", "Navigation.ADF2Frequency", .double, .value, .readWrite⟩,
  ⟨"NavigationADF2StandbyFrequency", "Navigation.ADF2StandbyFrequency", .double, .value, .readWrite⟩,
  ⟨"NavigationADF2FrequencySwap", "Navigation.ADF2FrequencySwap", .double, .event, .write⟩,
  ⟨"NavigationCOM1Frequency", "Communication.COM1Frequency", .double, .value, .readWrite⟩,
  ⟨"NavigationCOM1StandbyFrequency", "Communication.COM1StandbyFrequency", .double, .value, .readWrite⟩,
  ⟨"NavigationCOM1FrequencySwap", "Communication.COM1FrequencySwap", .double, .event, .write⟩,
  ⟨"NavigationCOM2Frequency", "Communication.COM2Frequency", .double, .value, .readWrite⟩,
  ⟨"NavigationCOM2StandbyFrequency", "Communication.COM2StandbyFrequency", .double, .value, .readWrite⟩,
  ⟨"NavigationCOM2FrequencySwap", "Communication.COM2FrequencySwap", .double, .event, .write⟩,
  ⟨"NavigationCOM3Frequency", "Communication.COM3Frequency", .double, .value, .readWrite⟩,
  ⟨"NavigationCOM3StandbyFrequency", "Communication.COM3StandbyFrequency", .double, .value, .readWrite⟩,
  ⟨"NavigationCOM3FrequencySwap", "Communication.COM3FrequencySwap", .double, .event, .write⟩,
  ⟨"TransponderCode", "Communication.TransponderCode", .double, .value, .readWrite⟩,
  ⟨"TransponderCursor", "Communication.TransponderCursor", .double, .value, .readWrite⟩,
  ⟨"AutopilotMaster", "Autopilot.Master", .double, .event, .write⟩,
  ⟨"AutopilotDisengage", "Autopilot.Disengage", .double, .event, .write⟩,
  ⟨"AutopilotHeading", "Autopilot.Heading", .double, .event, .write⟩,
  ⟨"AutopilotVerticalSpeed", "Autopilot.VerticalSpeed", .double, .event, .write⟩,
  ⟨"AutopilotSelectedSpeed", "Autopilot.SelectedSpeed", .double, .event, .write⟩,
  ⟨"AutopilotSelectedAirspeed", "Autopilot.SelectedAirspeed", .double, .value, .readWrite⟩,
  ⟨"AutopilotSelectedHeading", "Autopilot.SelectedHeading", .double, .value, .readWrite⟩
]

/-- Rows 160–199 of `messageList` (split into chunks of 40 rows
only to keep elaboration of the literal cheap; the concatenation below is the
table). -/
def messageListChunk4 : List RegEntry := [
  ⟨"AutopilotSelectedAltitude", "Autopilot.SelectedAltitude", .double, .value, .readWrite⟩,
  ⟨"AutopilotSelectedVerticalSpeed", "Autopilot.SelectedVerticalSpeed", .double, .value, .readWrite⟩,
  ⟨"AutopilotSelectedAltitudeScale", "Autopilot.SelectedAltitudeScale", .double, .value, .read⟩,
  ⟨"AutopilotActiveLateralMode", "Autopilot.ActiveLateralMode", .string, .value, .read⟩,
  ⟨"AutopilotArmedLateralMode", "Autopilot.ArmedLateralMode", .string, .value, .read⟩,
  ⟨"AutopilotActiveVerticalMode", "Autopilot.ActiveVerticalMode", .string, .value, .read⟩,
  ⟨"AutopilotArmedVerticalMode", "Autopilot.ArmedVerticalMode", .string, .value, .read⟩,
  ⟨"AutopilotArmedApproachMode", "Autopilot.ArmedApproachMode", .string, .value, .read⟩,
  ⟨"AutopilotActiveAutoThrottleMode", "Autopilot.ActiveAutoThrottleMode", .string, .value, .read⟩,
  ⟨"AutopilotActiveCollectiveMode", "Autopilot.ActiveCollectiveMode", .string, .value, .read⟩,
  ⟨"AutopilotArmedCollectiveMode", "Autopilot.ArmedCollectiveMode", .string, .value, .read⟩,
  ⟨"AutopilotType", "Autopilot.Type", .string, .value, .read⟩,
  ⟨"AutopilotEngaged", "Autopilot.Engaged", .double, .value, .read⟩,
  ⟨"AutopilotUseMachNumber", "Autopilot.UseMachNumber", .double, .value, .read⟩,
  ⟨"AutopilotSpeedManaged", "Autopilot.SpeedManaged", .double, .value, .read⟩,
  ⟨"AutopilotTargetAirspeed", "Autopilot.TargetAirspeed", .double, .value, .read⟩,
  ⟨"AutopilotAileron", "Autopilot.Aileron", .double, .value, .read⟩,
  ⟨"AutopilotElevator", "Autopilot.Elevator", .double, .value, .read⟩,
  ⟨"AutoAutoThrottleType", "AutoThrottle.Type", .double, .value, .read⟩,
  ⟨"AutopilotThrottleEngaged", "Autopilot.ThrottleEngaged", .double, .value, .read⟩,
  ⟨"AutopilotThrottleCommand", "Autopilot.ThrottleCommand", .double, .value, .read⟩,
  ⟨"FlightDirectorPitch", "FlightDirector.Pitch", .double, .value, .read⟩,
  ⟨"FlightDirectorBank", "FlightDirector.Bank", .double, .value, .read⟩,
  ⟨"FlightDirectorYaw", "FlightDirector.Yaw", .double, .value, .read⟩,
  ⟨"CopilotHeading", "Copilot.Heading", .double, .value, .read⟩,
  ⟨"CopilotAltitude", "Copilot.Altitude", .double, .value, .read⟩,
  ⟨"CopilotAirspeed", "Copilot.Airspeed", .double, .value, .read⟩,
  ⟨"CopilotVerticalSpeed", "Copilot.VerticalSpeed", .double, .value, .read⟩,
  ⟨"CopilotAileron", "Copilot.Aileron", .double, .value, .read⟩,
  ⟨"CopilotElevator", "Copilot.Elevator", .double, .value, .read⟩,
  ⟨"CopilotThrottle", "Copilot.Throttle", .double, .value, .read⟩,
  ⟨"CopilotAutoRudder", "Copilot.AutoRudder", .double, .value, .read⟩,
  ⟨"ControlsThrottle", "Controls.Throttle", .double, .value, .write⟩,
  ⟨"ControlsThrottle1", "Controls.Throttle1", .double, .value, .write⟩,
  ⟨"ControlsThrottle2", "Controls.Throttle2", .double, .value, .write⟩,
  ⟨"ControlsThrottle3", "Controls.Throttle3", .double, .value, .write⟩,
  ⟨"ControlsThrottle4", "Controls.Throttle4", .double, .value, .write⟩,
  ⟨"ControlsThrottle1Move", "Controls.Throttle1", .double, .move, .write⟩,
  ⟨"ControlsThrottle2Move", "Controls.Throttle2", .double, .move, .write⟩,
  ⟨"ControlsThrottle3Move", "Controls.Throttle3", .double, .move, .write⟩
]

/-- Rows 200–239 of `messageList` (split into chunks of 40 rows
only to keep elaboration of the literal cheap; the concatenation below is the
table). -/
def messageListChunk5 : List RegEntry := [
  ⟨"ControlsThrottle4Move", "Controls.Throttle4", .double, .move, .write⟩,
  ⟨"ControlsPitchInput", "Controls.Pitch.Input", .double, .value, .write⟩,
  ⟨"ControlsPitchInputOffset", "Controls.Pitch.Input", .double, .offset, .write⟩,
  ⟨"ControlsRollInput", "Controls.Roll.Input", .double, .value, .write⟩,
  ⟨"ControlsRollInputOffset", "Controls.Roll.Input", .double, .offset, .write⟩,
  ⟨"ControlsYawInput", "Controls.Yaw.Input", .double, .value, .write⟩,
  ⟨"ControlsYawInputActive", "Controls.Yaw.Input", .double, .active, .write⟩,
  ⟨"ControlsFlaps", "Controls.Flaps", .double, .value, .readWrite⟩,
  ⟨"ControlsFlapsEvent", "Controls.Flaps", .double, .event, .write⟩,
  ⟨"ControlsGear", "Controls.Gear", .double, .value, .readWrite⟩,
  ⟨"ControlsGearToggle", "Controls.Gear", .double, .toggle, .write⟩,
  ⟨"ControlsWheelBrakeLeft", "Controls.WheelBrake.Left", .double, .value, .write⟩,
  ⟨"ControlsWheelBrakeRight", "Controls.WheelBrake.Right", .double, .value, .write⟩,
  ⟨"ControlsWheelBrakeLeftActive", "Controls.WheelBrake.Left", .double, .active, .write⟩,
  ⟨"ControlsWheelBrakeRightActive", "Controls.WheelBrake.Right", .double, .active, .write⟩,
  ⟨"ControlsAirBrake", "Controls.AirBrake", .double, .value, .write⟩,
  ⟨"ControlsAirBrakeActive", "Controls.AirBrake", .double, .active, .write⟩,
  ⟨"ControlsAirBrakeArm", "Controls.AirBrake.Arm", .double, .event, .write⟩,
  ⟨"ControlsGliderAirBrake", "Controls.GliderAirBrake", .double, .value, .write⟩,
  ⟨"ControlsPropellerSpeed1", "Controls.PropellerSpeed1", .double, .value, .write⟩,
  ⟨"ControlsPropellerSpeed2", "Controls.PropellerSpeed2", .double, .value, .write⟩,
  ⟨"ControlsPropellerSpeed3", "Controls.PropellerSpeed3", .double, .value, .write⟩,
  ⟨"ControlsPropellerSpeed4", "Controls.PropellerSpeed4", .double, .value, .write⟩,
  ⟨"ControlsMixture", "Controls.Mixture", .double, .value, .write⟩,
  ⟨"ControlsMixture1", "Controls.Mixture1", .double, .value, .write⟩,
  ⟨"ControlsMixture2", "Controls.Mixture2", .double, .value, .write⟩,
  ⟨"ControlsMixture3", "Controls.Mixture3", .double, .value, .write⟩,
  ⟨"ControlsMixture4", "Controls.Mixture4", .double, .value, .write⟩,
  ⟨"ControlsThrustReverse", "Controls.ThrustReverse", .double, .value, .write⟩,
  ⟨"ControlsThrustReverse1", "Controls.ThrustReverse1", .double, .value, .write⟩,
  ⟨"ControlsThrustReverse2", "Controls.ThrustReverse2", .double, .value, .write⟩,
  ⟨"ControlsThrustReverse3", "Controls.ThrustReverse3", .double, .value, .write⟩,
  ⟨"ControlsThrustReverse4", "Controls.ThrustReverse4", .double, .value, .write⟩,
  ⟨"ControlsCollective", "Controls.Collective", .double, .value, .write⟩,
  ⟨"ControlsCyclicPitch", "Controls.CyclicPitch", .double, .value, .write⟩,
  ⟨"ControlsCyclicRoll", "Controls.CyclicRoll", .double, .value, .write⟩,
  ⟨"ControlsTailRotor", "Controls.TailRotor", .double, .value, .write⟩,
  ⟨"ControlsRotorBrake", "Controls.RotorBrake", .double, .value, .write⟩,
  ⟨"ControlsHelicopterThrottle1", "Controls.HelicopterThrottle1", .double, .value, .write⟩,
  ⟨"ControlsHelicopterThrottle2", "Controls.HelicopterThrottle2", .double, .value, .write⟩
]

/-- Rows 240–279 of `messageList` (split into chunks of 40 rows
only to keep elaboration of the literal cheap; the concatenation below is the
table). -/
def messageListChunk6 : List RegEntry := [
  ⟨"ControlsTrim", "Controls.Trim", .double, .value, .write⟩,
  ⟨"ControlsTrimStep", "Controls.Trim", .double, .step, .write⟩,
  ⟨"ControlsTrimMove", "Controls.Trim", .double, .move, .write⟩,
  ⟨"ControlsAileronTrim", "Controls.AileronTrim", .double, .value, .write⟩,
  ⟨"ControlsRudderTrim", "Controls.RudderTrim", .double, .value, .write⟩,
  ⟨"ControlsTiller", "Controls.Tiller", .double, .value, .write⟩,
  ⟨"ControlsPedalsDisconnect", "Controls.PedalsDisconnect", .double, .toggle, .write⟩,
  ⟨"ControlsNoseWheelSteering", "Controls.NoseWheelSteering", .double, .toggle, .write⟩,
  ⟨"ControlsLightingPanel", "Controls.Lighting.Panel", .double, .event, .write⟩,
  ⟨"ControlsLightingInstruments", "Controls.Lighting.Instruments", .double, .event, .write⟩,
  ⟨"ControlsPressureSetting0", "Controls.PressureSetting0", .double, .event, .readWrite⟩,
  ⟨"ControlsPressureSettingStandard0", "Controls.PressureSettingStandard0", .double, .event, .readWrite⟩,
  ⟨"ControlsPressureSettingUnit0", "Controls.PressureSettingUnit0", .double, .event, .readWrite⟩,
  ⟨"ControlsPressureSetting1", "Controls.PressureSetting1", .double, .event, .readWrite⟩,
  ⟨"ControlsPressureSettingStandard1", "Controls.PressureSettingStandard1", .double, .event, .readWrite⟩,
  ⟨"ControlsPressureSettingUnit1", "Controls.PressureSettingUnit1", .double, .event, .readWrite⟩,
  ⟨"ControlsPressureSetting2", "Controls.PressureSetting2", .double, .event, .readWrite⟩,
  ⟨"ControlsPressureSettingStandard2", "Controls.PressureSettingStandard2", .double, .event, .readWrite⟩,
  ⟨"ControlsPressureSettingUnit2", "Controls.PressureSettingUnit2", .double, .event, .readWrite⟩,
  ⟨"ControlsTransitionAltitude", "Controls.TransitionAltitude", .double, .event, .read⟩,
  ⟨"ControlsTransitionLevel", "Controls.TransitionLevel", .double, .event, .read⟩,
  ⟨"PressurizationLandingElevation", "Pressurization.LandingElevation", .double, .event, .readWrite⟩,
  ⟨"PressurizationLandingElevationManual", "Pressurization.LandingElevationManual", .double, .event, .readWrite⟩,
  ⟨"WarningsMasterWarning", "Warnings.MasterWarning", .double, .event, .readWrite⟩,
  ⟨"WarningsMasterCaution", "Warnings.MasterCaution", .double, .event, .read⟩,
  ⟨"WarningsEngineFire", "Warnings.EngineFire", .double, .event, .read⟩,
  ⟨"WarningsLowOilPressure", "Warnings.LowOilPressure", .double, .event, .read⟩,
  ⟨"WarningsLowFuelPressure", "Warnings.LowFuelPressure", .double, .event, .read⟩,
  ⟨"WarningsLowHydraulicPressure", "Warnings.LowHydraulicPressure", .double, .event, .read⟩,
  ⟨"WarningsLowVoltage", "Warnings.LowVoltage", .double, .event, .read⟩,
  ⟨"WarningsAltitudeAlert", "Warnings.AltitudeAlert", .double, .event, .read⟩,
  ⟨"WarningsWarningActive", "Warnings.WarningActive", .double, .event, .read⟩,
  ⟨"WarningsWarningMute", "Warnings.WarningMute", .double, .event, .read⟩,
  ⟨"ViewDisplayName", "View.DisplayName", .string, .noneFlag, .read⟩,
  ⟨"ViewInternal", "View.Internal", .double, .noneFlag, .write⟩,
  ⟨"ViewFollow", "View.Follow", .double, .noneFlag, .write⟩,
  ⟨"ViewExternal", "View.External", .double, .noneFlag, .write⟩,
  ⟨"ViewCategory", "View.Category", .double, .noneFlag, .write⟩,
  ⟨"ViewMode", "View.Mode", .double, .noneFlag, .write⟩,
  ⟨"ViewZoom", "View.Zoom", .double, .noneFlag, .write⟩
]

/-- Rows 280–319 of `messageList` (split into chunks of 40 rows
only to keep elaboration of the literal cheap; the concatenation below is the
table). -/
def messageListChunk7 : List RegEntry := [
  ⟨"ViewPanHorizontal", "View.Pan.Horizontal", .double, .noneFlag, .write⟩,
  ⟨"ViewPanHorizontalMove", "View.Pan.Horizontal", .double, .move, .write⟩,
  ⟨"ViewPanVertical", "View.Pan.Vertical", .double, .noneFlag, .write⟩,
  ⟨"ViewPanVerticalMove", "View.Pan.Vertical", .double, .move, .write⟩,
  ⟨"ViewPanCenter", "View.Pan.Center", .double, .noneFlag, .write⟩,
  ⟨"ViewLookHorizontal", "View.Look.Horizontal", .double, .value, .write⟩,
  ⟨"ViewLookVertical", "View.Look.Vertical", .double, .value, .write⟩,
  ⟨"ViewRoll", "View.Roll", .double, .noneFlag, .write⟩,
  ⟨"ViewOffsetX", "View.OffsetX", .double, .value, .write⟩,
  ⟨"ViewOffsetXMove", "View.OffsetX", .double, .move, .write⟩,
  ⟨"ViewOffsetY", "View.OffsetY", .double, .value, .write⟩,
  ⟨"ViewOffsetYMove", "View.OffsetY", .double, .move, .write⟩,
  ⟨"ViewOffsetZ", "View.OffsetZ", .double, .value, .write⟩,
  ⟨"ViewOffsetZMove", "View.OffsetZ", .double, .move, .write⟩,
  ⟨"ViewPosition", "View.Position", .double, .value, .write⟩,
  ⟨"ViewDirection", "View.Direction", .double, .value, .write⟩,
  ⟨"ViewUp", "View.Up", .double, .value, .write⟩,
  ⟨"ViewFieldOfView", "View.FieldOfView", .double, .value, .write⟩,
  ⟨"ViewAspectRatio", "View.AspectRatio", .double, .value, .write⟩,
  ⟨"ViewFreePosition", "View.FreePosition", .vector3d, .value, .write⟩,
  ⟨"ViewFreeLookDirection", "View.FreeLookDirection", .vector3d, .value, .write⟩,
  ⟨"ViewFreeUp", "View.FreeUp", .vector3d, .value, .write⟩,
  ⟨"ViewFreeFieldOfView", "View.FreeFieldOfView", .double, .value, .write⟩,
  ⟨"SimulationPause", "Simulation.Pause", .double, .toggle, .readWrite⟩,
  ⟨"SimulationFlightInformation", "Simulation.FlightInformation", .double, .toggle, .write⟩,
  ⟨"SimulationMovingMap", "Simulation.MovingMap", .double, .toggle, .write⟩,
  ⟨"SimulationSound", "Simulation.Sound", .double, .toggle, .write⟩,
  ⟨"SimulationLiftUp", "Simulation.LiftUp", .double, .event, .write⟩,
  ⟨"SimulationSettingPosition", "Simulation.SettingPosition", .vector3d, .noneFlag, .write⟩,
  ⟨"SimulationSettingOrientation", "Simulation.SettingOrientation", .vector4d, .noneFlag, .write⟩,
  ⟨"SimulationSettingVelocity", "Simulation.SettingVelocity", .vector3d, .noneFlag, .write⟩,
  ⟨"SimulationSettingSet", "Simulation.SettingSet", .double, .noneFlag, .write⟩,
  ⟨"SimulationTimeChange", "Simulation.TimeChange", .double, .event, .write⟩,
  ⟨"SimulationVisibility", "Simulation.Visibility", .double, .event, .readWrite⟩,
  ⟨"SimulationTime", "Simulation.Time", .double, .value, .readWrite⟩,
  ⟨"SimulationUseMouseControl", "Simulation.UseMouseControl", .double, .value, .readWrite⟩,
  ⟨"SimulationPlaybackStart", "Simulation.PlaybackStart", .double, .noneFlag, .write⟩,
  ⟨"SimulationPlaybackStop", "Simulation.PlaybackStop", .double, .noneFlag, .write⟩,
  ⟨"SimulationPlaybackSetPosition", "Simulation.PlaybackPosition", .double, .noneFlag, .write⟩,
  ⟨"SimulationExternalPosition", "Simulation.ExternalPosition", .vector3d, .value, .write⟩
]

/-- Rows 320–356 of `messageList` (split into chunks of 40 rows
only to keep elaboration of the literal cheap; the concatenation below is the
table). -/
def messageListChunk8 : List RegEntry := [
  ⟨"SimulationExternalOrientation", "Simulation.ExternalOrientation", .vector4d, .value, .write⟩,
  ⟨"CommandExecute", "Command.Execute", .double, .event, .write⟩,
  ⟨"CommandBack", "Command.Back", .double, .event, .write⟩,
  ⟨"CommandUp", "Command.Up", .double, .event, .write⟩,
  ⟨"CommandDown", "Command.Down", .double, .event, .write⟩,
  ⟨"CommandLeft", "Command.Left", .double, .event, .write⟩,
  ⟨"CommandRight", "Command.Right", .double, .event, .write⟩,
  ⟨"CommandMoveHorizontal", "Command.MoveHorizontal", .double, .value, .write⟩,
  ⟨"CommandMoveVertical", "Command.MoveVertical", .double, .value, .write⟩,
  ⟨"CommandRotate", "Command.Rotate", .double, .value, .write⟩,
  ⟨"CommandZoom", "Command.Zoom", .double, .value, .write⟩,
  ⟨"ControlsSpeed", "Controls.Speed", .double, .value, .write⟩,
  ⟨"FMSData0", "FlightManagementSystem.Data0", .noneType, .value, .noneAccess⟩,
  ⟨"FMSData1", "FlightManagementSystem.Data1", .noneType, .value, .noneAccess⟩,
  ⟨"NAV1Data", "Navigation.NAV1Data", .noneType, .value, .noneAccess⟩,
  ⟨"NAV2Data", "Navigation.NAV2Data", .noneType, .value, .noneAccess⟩,
  ⟨"NAV3Data", "Navigation.NAV3Data", .noneType, .value, .noneAccess⟩,
  ⟨"ILS1Data", "Navigation.ILS1Data", .noneType, .value, .noneAccess⟩,
  ⟨"ILS2Data", "Navigation.ILS2Data", .noneType, .value, .noneAccess⟩,
  ⟨"C172FuelSelector", "Controls.FuelSelector", .double, .value, .write⟩,
  ⟨"C172FuelShutOff", "Controls.FuelShutOff", .double, .event, .write⟩,
  ⟨"C172HideYokeLeft", "Controls.HideYoke.Left", .double, .toggle, .write⟩,
  ⟨"C172HideYokeRight", "Controls.HideYoke.Right", .double, .toggle, .write⟩,
  ⟨"C172LeftSunBlocker", "Controls.LeftSunBlocker", .double, .value, .write⟩,
  ⟨"C172RightSunBlocker", "Controls.RightSunBlocker", .double, .value, .write⟩,
  ⟨"C172LeftCabinLight", "Controls.Lighting.LeftCabinOverheadLight", .double, .toggle, .write⟩,
  ⟨"C172RightCabinLight", "Controls.Lighting.RightCabinOverheadLight", .double, .toggle, .write⟩,
  ⟨"C172Magnetos1", "Controls.Magnetos1", .double, .value, .write⟩,
  ⟨"C172ParkingBrakeHandle", "Controls.ParkingBrake", .double, .toggle, .write⟩,
  ⟨"C172TrimWheel", "Controls.Trim", .double, .step, .write⟩,
  ⟨"C172LeftYokeButton", "LeftYoke.Button", .double, .event, .write⟩,
  ⟨"C172LeftDoor", "Doors.Left", .double, .step, .readWrite⟩,
  ⟨"C172LeftDoorHandle", "Doors.LeftHandle", .double, .step, .write⟩,
  ⟨"C172RightDoor", "Doors.Right", .double, .step, .readWrite⟩,
  ⟨"C172RightDoorHandle", "Doors.RightHandle", .double, .step, .write⟩,
  ⟨"C172LeftWindow", "Windows.Left", .double, .step, .readWrite⟩,
  ⟨"C172RightWindow", "Windows.Right", .double, .step, .readWrite⟩
]

/-- The static message table of the source (`MESSAGE_LIST`, src line 1584 ff.):
one entry per `F(CppName, Var.Name, data_type, flag, access, unit, doc)` row, in
row order.  The unit and doc columns play no role in any claim and are omitted. -/
def messageListEntries : List RegEntry := messageListChunk0 ++ messageListChunk1 ++ messageListChunk2 ++ messageListChunk3 ++ messageListChunk4 ++ messageListChunk5 ++ messageListChunk6 ++ messageListChunk7 ++ messageListChunk8

/-- Rows 0–39 of `nameToIndex` (split into chunks of 40 rows
only to keep elaboration of the literal cheap; the concatenation below is the
table). -/
def nameToIndexChunk0 : List (String × Nat) := [
  ("Aircraft.UniversalTime", 0),
  ("Aircraft.Altitude", 1),
  ("Aircraft.VerticalSpeed", 2),
  ("Aircraft.Pitch", 3),
  ("Aircraft.Bank", 4),
  ("Aircraft.IndicatedAirspeed", 5),
  ("Aircraft.IndicatedAirspeedTrend", 6),
  ("Aircraft.GroundSpeed", 7),
  ("Aircraft.MagneticHeading", 8),
  ("Aircraft.TrueHeading", 9),
  ("Aircraft.Latitude", 10),
  ("Aircraft.Longitude", 11),
  ("Aircraft.Height", 12),
  ("Aircraft.Position", 13),
  ("Aircraft.Orientation", 14),
  ("Aircraft.Velocity", 15),
  ("Aircraft.AngularVelocity", 16),
  ("Aircraft.Acceleration", 17),
  ("Aircraft.Gravity", 18),
  ("Aircraft.Wind", 19),
  ("Aircraft.RateOfTurn", 20),
  ("Aircraft.MachNumber", 21),
  ("Aircraft.AngleOfAttack", 22),
  ("Aircraft.AngleOfAttackLimit", 23),
  ("Aircraft.AccelerationLimit", 24),
  ("Aircraft.Gear", 25),
  ("Aircraft.Flaps", 26),
  ("Aircraft.Slats", 27),
  ("Aircraft.Throttle", 28),
  ("Aircraft.AirBrake", 29),
  ("Aircraft.GroundSpoilersArmed", 30),
  ("Aircraft.GroundSpoilersExtended", 31),
  ("Aircraft.ParkingBrake", 32),
  ("Aircraft.AutoBrakeSetting", 33),
  ("Aircraft.AutoBrakeEngaged", 34),
  ("Aircraft.AutoBrakeRejectedTakeOff", 35),
  ("Aircraft.RadarAltitude", 36),
  ("Aircraft.Name", 37),
  ("Aircraft.NearestAirportIdentifier", 38),
  ("Aircraft.NearestAirportName", 39)
]

/-- Rows 40–79 of `nameToIndex` (split into chunks of 40 rows
only to keep elaboration of the literal cheap; the concatenation below is the
table). -/
def nameToIndexChunk1 : List (String × Nat) := [
  ("Aircraft.NearestAirportLocation", 40),
  ("Aircraft.NearestAirportElevation", 41),
  ("Aircraft.BestAirportIdentifier", 42),
  ("Aircraft.BestAirportName", 43),
  ("Aircraft.BestAirportLocation", 44),
  ("Aircraft.BestAirportElevation", 45),
  ("Aircraft.BestRunwayIdentifier", 46),
  ("Aircraft.BestRunwayElevation", 47),
  ("Aircraft.BestRunwayThreshold", 48),
  ("Aircraft.BestRunwayEnd", 49),
  ("Aircraft.Category.Jet", 50),
  ("Aircraft.Category.Glider", 51),
  ("Aircraft.OnGround", 52),
  ("Aircraft.OnRunway", 53),
  ("Aircraft.Crashed", 54),
  ("Aircraft.Power", 55),
  ("Aircraft.NormalizedPower", 56),
  ("Aircraft.NormalizedPowerTarget", 57),
  ("Aircraft.Trim", 58),
  ("Aircraft.PitchTrim", 59),
  ("Aircraft.PitchTrimScaling", 60),
  ("Aircraft.PitchTrimOffset", 61),
  ("Aircraft.RudderTrim", 62),
  ("Aircraft.AutoPitchTrim", 63),
  ("Aircraft.YawDamperEnabled", 64),
  ("Aircraft.RudderPedalsDisconnected", 65),
  ("Aircraft.Starter", 66),
  ("Aircraft.Starter1", 67),
  ("Aircraft.Starter2", 68),
  ("Aircraft.Starter3", 69),
  ("Aircraft.Starter4", 70),
  ("Aircraft.Ignition", 71),
  ("Aircraft.Ignition1", 72),
  ("Aircraft.Ignition2", 73),
  ("Aircraft.Ignition3", 74),
  ("Aircraft.Ignition4", 75),
  ("Aircraft.ThrottleLimit", 76),
  ("Aircraft.Reverse", 77),
  ("Aircraft.EngineMaster1", 78),
  ("Aircraft.EngineMaster2", 79)
]

/-- Rows 80–119 of `nameToIndex` (split into chunks of 40 rows
only to keep elaboration of the literal cheap; the concatenation below is the
table). -/
def nameToIndexChunk2 : List (String × Nat) := [
  ("Aircraft.EngineMaster3", 80),
  ("Aircraft.EngineMaster4", 81),
  ("Aircraft.EngineThrottle1", 82),
  ("Aircraft.EngineThrottle2", 83),
  ("Aircraft.EngineThrottle3", 84),
  ("Aircraft.EngineThrottle4", 85),
  ("Aircraft.EngineRotationSpeed1", 86),
  ("Aircraft.EngineRotationSpeed2", 87),
  ("Aircraft.EngineRotationSpeed3", 88),
  ("Aircraft.EngineRotationSpeed4", 89),
  ("Aircraft.EngineRunning1", 90),
  ("Aircraft.EngineRunning2", 91),
  ("Aircraft.EngineRunning3", 92),
  ("Aircraft.EngineRunning4", 93),
  ("Aircraft.APUAvailable", 94),
  ("Performance.Speed.VS0", 95),
  ("Performance.Speed.VS1", 96),
  ("Performance.Speed.VFE", 97),
  ("Performance.Speed.VNO", 98),
  ("Performance.Speed.VNE", 99),
  ("Performance.Speed.VAPP", 100),
  ("Performance.Speed.Minimum", 101),
  ("Performance.Speed.Maximum", 102),
  ("Performance.Speed.MinimumFlapRetraction", 103),
  ("Performance.Speed.MaximumFlapExtension", 104),
  ("Configuration.SelectedTakeOffFlaps", 105),
  ("Configuration.SelectedLandingFlaps", 106),
  ("FlightManagementSystem.FlightNumber", 107),
  ("Navigation.SelectedCourse1", 108),
  ("Navigation.SelectedCourse2", 109),
  ("Navigation.NAV1Identifier", 110),
  ("Navigation.NAV1Frequency", 111),
  ("Navigation.NAV1StandbyFrequency", 112),
  ("Navigation.NAV1FrequencySwap", 113),
  ("Navigation.NAV2Identifier", 114),
  ("Navigation.NAV2Frequency", 115),
  ("Navigation.NAV2StandbyFrequency", 116),
  ("Navigation.NAV2FrequencySwap", 117),
  ("Navigation.DME1Frequency", 118),
  ("Navigation.DME1Distance", 119)
]

/-- Rows 120–159 of `nameToIndex` (split into chunks of 40 rows
only to keep elaboration of the literal cheap; the concatenation below is the
table). -/
def nameToIndexChunk3 : List (String × Nat) := [
  ("Navigation.DME1Time", 120),
  ("Navigation.DME1Speed", 121),
  ("Navigation.DME2Frequency", 122),
  ("Navigation.DME2Distance", 123),
  ("Navigation.DME2Time", 124),
  ("Navigation.DME2Speed", 125),
  ("Navigation.ILS1Identifier", 126),
  ("Navigation.ILS1Course", 127),
  ("Navigation.ILS1Frequency", 128),
  ("Navigation.ILS1StandbyFrequency", 129),
  ("Navigation.ILS1FrequencySwap", 130),
  ("Navigation.ILS2Identifier", 131),
  ("Navigation.ILS2Course", 132),
  ("Navigation.ILS2Frequency", 133),
  ("Navigation.ILS2StandbyFrequency", 134),
  ("Navigation.ILS2FrequencySwap", 135),
  ("Navigation.ADF1Frequency", 136),
  ("Navigation.ADF1StandbyFrequency", 137),
  ("Navigation.ADF1FrequencySwap", 138),
  ("Navigation.ADF2Frequency", 139),
  ("Navigation.ADF2StandbyFrequency", 140),
  ("Navigation.ADF2FrequencySwap", 141),
  ("Communication.COM1Frequency", 142),
  ("Communication.COM1StandbyFrequency", 143),
  ("Communication.COM1FrequencySwap", 144),
  ("Communication.COM2Frequency", 145),
  ("Communication.COM2StandbyFrequency", 146),
  ("Communication.COM2FrequencySwap", 147),
  ("Communication.COM3Frequency", 148),
  ("Communication.COM3StandbyFrequency", 149),
  ("Communication.COM3FrequencySwap", 150),
  ("Communication.TransponderCode", 151),
  ("Communication.TransponderCursor", 152),
  ("Autopilot.Master", 153),
  ("Autopilot.Disengage", 154),
  ("Autopilot.Heading", 155),
  ("Autopilot.VerticalSpeed", 156),
  ("Autopilot.SelectedSpeed", 157),
  ("Autopilot.SelectedAirspeed", 158),
  ("Autopilot.SelectedHeading", 159)
]

/-- Rows 160–199 of `nameToIndex` (split into chunks of 40 rows
only to keep elaboration of the literal cheap; the concatenation below is the
table). -/
def nameToIndexChunk4 : List (String × Nat) := [
  ("Autopilot.SelectedAltitude", 160),
  ("Autopilot.SelectedVerticalSpeed", 161),
  ("Autopilot.SelectedAltitudeScale", 162),
  ("Autopilot.ActiveLateralMode", 163),
  ("Autopilot.ArmedLateralMode", 164),
  ("Autopilot.ActiveVerticalMode", 165),
  ("Autopilot.ArmedVerticalMode", 166),
  ("Autopilot.ArmedApproachMode", 167),
  ("Autopilot.ActiveAutoThrottleMode", 168),
  ("Autopilot.ActiveCollectiveMode", 169),
  ("Autopilot.ArmedCollectiveMode", 170),
  ("Autopilot.Type", 171),
  ("Autopilot.Engaged", 172),
  ("Autopilot.UseMachNumber", 173),
  ("Autopilot.SpeedManaged", 174),
  ("Autopilot.TargetAirspeed", 175),
  ("Autopilot.Aileron", 176),
  ("Autopilot.Elevator", 177),
  ("AutoThrottle.Type", 178),
  ("Autopilot.ThrottleEngaged", 179),
  ("Autopilot.ThrottleCommand", 180),
  ("FlightDirector.Pitch", 181),
  ("FlightDirector.Bank", 182),
  ("FlightDirector.Yaw", 183),
  ("Copilot.Heading", 184),
  ("Copilot.Altitude", 185),
  ("Copilot.Airspeed", 186),
  ("Copilot.VerticalSpeed", 187),
  ("Copilot.Aileron", 188),
  ("Copilot.Elevator", 189),
  ("Copilot.Throttle", 190),
  ("Copilot.AutoRudder", 191),
  ("Controls.Throttle", 192),
  ("Controls.Throttle1", 193),
  ("Controls.Throttle2", 194),
  ("Controls.Throttle3", 195),
  ("Controls.Throttle4", 196),
  ("Controls.Throttle1Move", 197),
  ("Controls.Throttle2Move", 198),
  ("Controls.Throttle3Move", 199)
]

/-- Rows 200–239 of `nameToIndex` (split into chunks of 40 rows
only to keep elaboration of the literal cheap; the concatenation below is the
table). -/
def nameToIndexChunk5 : List (String × Nat) := [
  ("Controls.Throttle4Move", 200),
  ("Controls.Pitch.Input", 201),
  ("Controls.Pitch.InputOffset", 202),
  ("Controls.Roll.Input", 203),
  ("Controls.Roll.InputOffset", 204),
  ("Controls.Yaw.Input", 205),
  ("Controls.Yaw.InputActive", 206),
  ("Controls.Flaps", 207),
  ("Controls.FlapsEvent", 208),
  ("Controls.Gear", 209),
  ("Controls.GearToggle", 210),
  ("Controls.WheelBrake.Left", 211),
  ("Controls.WheelBrake.Right", 212),
  ("Controls.WheelBrake.LeftActive", 213),
  ("Controls.WheelBrake.RightActive", 214),
  ("Controls.AirBrake", 215),
  ("Controls.AirBrakeActive", 216),
  ("Controls.AirBrake.Arm", 217),
  ("Controls.GliderAirBrake", 218),
  ("Controls.PropellerSpeed1", 219),
  ("Controls.PropellerSpeed2", 220),
  ("Controls.PropellerSpeed3", 221),
  ("Controls.PropellerSpeed4", 222),
  ("Controls.Mixture", 223),
  ("Controls.Mixture1", 224),
  ("Controls.Mixture2", 225),
  ("Controls.Mixture3", 226),
  ("Controls.Mixture4", 227),
  ("Controls.ThrustReverse", 228),
  ("Controls.ThrustReverse1", 229),
  ("Controls.ThrustReverse2", 230),
  ("Controls.ThrustReverse3", 231),
  ("Controls.ThrustReverse4", 232),
  ("Controls.Collective", 233),
  ("Controls.CyclicPitch", 234),
  ("Controls.CyclicRoll", 235),
  ("Controls.TailRotor", 236),
  ("Controls.RotorBrake", 237),
  ("Controls.HelicopterThrottle1", 238),
  ("Controls.HelicopterThrottle2", 239)
]

/-- Rows 240–279 of `nameToIndex` (split into chunks of 40 rows
only to keep elaboration of the literal cheap; the concatenation below is the
table). -/
def nameToIndexChunk6 : List (String × Nat) := [
  ("Controls.Trim", 240),
  ("Controls.TrimStep", 241),
  ("Controls.TrimMove", 242),
  ("Controls.AileronTrim", 243),
  ("Controls.RudderTrim", 244),
  ("Controls.Tiller", 245),
  ("Controls.PedalsDisconnect", 246),
  ("Controls.NoseWheelSteering", 247),
  ("Controls.Lighting.Panel", 248),
  ("Controls.Lighting.Instruments", 249),
  ("Controls.PressureSetting0", 250),
  ("Controls.PressureSettingStandard0", 251),
  ("Controls.PressureSettingUnit0", 252),
  ("Controls.PressureSetting1", 253),
  ("Controls.PressureSettingStandard1", 254),
  ("Controls.PressureSettingUnit1", 255),
  ("Controls.PressureSetting2", 256),
  ("Controls.PressureSettingStandard2", 257),
  ("Controls.PressureSettingUnit2", 258),
  ("Controls.TransitionAltitude", 259),
  ("Controls.TransitionLevel", 260),
  ("Pressurization.LandingElevation", 261),
  ("Pressurization.LandingElevationManual", 262),
  ("Warnings.MasterWarning", 263),
  ("Warnings.MasterCaution", 264),
  ("Warnings.EngineFire", 265),
  ("Warnings.LowOilPressure", 266),
  ("Warnings.LowFuelPressure", 267),
  ("Warnings.LowHydraulicPressure", 268),
  ("Warnings.LowVoltage", 269),
  ("Warnings.AltitudeAlert", 270),
  ("Warnings.WarningActive", 271),
  ("Warnings.WarningMute", 272),
  ("View.DisplayName", 273),
  ("View.Internal", 274),
  ("View.Follow", 275),
  ("View.External", 276),
  ("View.Category", 277),
  ("View.Mode", 278),
  ("View.Zoom", 279)
]

/-- Rows 280–319 of `nameToIndex` (split into chunks of 40 rows
only to keep elaboration of the literal cheap; the concatenation below is the
table). -/
def nameToIndexChunk7 : List (String × Nat) := [
  ("View.Pan.Horizontal", 280),
  ("View.Pan.HorizontalMove", 281),
  ("View.Pan.Vertical", 282),
  ("View.Pan.VerticalMove", 283),
  ("View.Pan.Center", 284),
  ("View.Look.Horizontal", 285),
  ("View.Look.Vertical", 286),
  ("View.Roll", 287),
  ("View.OffsetX", 288),
  ("View.OffsetXMove", 289),
  ("View.OffsetY", 290),
  ("View.OffsetYMove", 291),
  ("View.OffsetZ", 292),
  ("View.OffsetZMove", 293),
  ("View.Position", 294),
  ("View.Direction", 295),
  ("View.Up", 296),
  ("View.FieldOfView", 297),
  ("View.AspectRatio", 298),
  ("View.FreePosition", 299),
  ("View.FreeLookDirection", 300),
  ("View.FreeUp", 301),
  ("View.FreeFieldOfView", 302),
  ("Simulation.Pause", 303),
  ("Simulation.FlightInformation", 304),
  ("Simulation.MovingMap", 305),
  ("Simulation.Sound", 306),
  ("Simulation.LiftUp", 307),
  ("Simulation.SettingPosition", 308),
  ("Simulation.SettingOrientation", 309),
  ("Simulation.SettingVelocity", 310),
  ("Simulation.SettingSet", 311),
  ("Simulation.TimeChange", 312),
  ("Simulation.Visibility", 313),
  ("Simulation.Time", 314),
  ("Simulation.UseMouseControl", 315),
  ("Simulation.PlaybackStart", 316),
  ("Simulation.PlaybackStop", 317),
  ("Simulation.PlaybackPosition", 318),
  ("Simulation.ExternalPosition", 319)
]

/-- Rows 320–356 of `nameToIndex` (split into chunks of 40 rows
only to keep elaboration of the literal cheap; the concatenation below is the
table). -/
def nameToIndexChunk8 : List (String × Nat) := [
  ("Simulation.ExternalOrientation", 320),
  ("Command.Execute", 321),
  ("Command.Back", 322),
  ("Command.Up", 323),
  ("Command.Down", 324),
  ("Command.Left", 325),
  ("Command.Right", 326),
  ("Command.MoveHorizontal", 327),
  ("Command.MoveVertical", 328),
  ("Command.Rotate", 329),
  ("Command.Zoom", 330),
  ("Controls.Speed", 331),
  ("FlightManagementSystem.Data0", 332),
  ("FlightManagementSystem.Data1", 333),
  ("Navigation.NAV1Data", 334),
  ("Navigation.NAV2Data", 335),
  ("Navigation.NAV3Data", 336),
  ("Navigation.ILS1Data", 337),
  ("Navigation.ILS2Data", 338),
  ("Controls.FuelSelector", 340),
  ("Controls.FuelShutOff", 341),
  ("Controls.HideYoke.Left", 342),
  ("Controls.HideYoke.Right", 343),
  ("Controls.LeftSunBlocker", 344),
  ("Controls.RightSunBlocker", 345),
  ("Controls.Lighting.LeftCabinOverheadLight", 346),
  ("Controls.Lighting.RightCabinOverheadLight", 347),
  ("Controls.Magnetos1", 348),
  ("Controls.ParkingBrakeHandle", 349),
  ("Controls.TrimWheel", 350),
  ("LeftYoke.Button", 351),
  ("Doors.Left", 352),
  ("Doors.LeftHandle", 353),
  ("Doors.Right", 354),
  ("Doors.RightHandle", 355),
  ("Windows.Left", 356),
  ("Windows.Right", 357)
]

/-- The `name_to_index` insertions of the `VariableMapper` constructor (src lines
1148 ff.), in source order, with each `(int)VariableIndex::…` enumerator replaced
by its numeric value from the `VariableIndex` enum declaration. -/
def nameToIndexPairs : List (String × Nat) := nameToIndexChunk0 ++ nameToIndexChunk1 ++ nameToIndexChunk2 ++ nameToIndexChunk3 ++ nameToIndexChunk4 ++ nameToIndexChunk5 ++ nameToIndexChunk6 ++ nameToIndexChunk7 ++ nameToIndexChunk8

/-- Rows 0–39 of `cmdHandlers` (split into chunks of 40 rows
only to keep elaboration of the literal cheap; the concatenation below is the
table). -/
def cmdHandlersChunk0 : List (String × String) := [
  ("Controls.Pitch.Input", "ControlsPitchInput"),
  ("Controls.Roll.Input", "ControlsRollInput"),
  ("Controls.Yaw.Input", "ControlsYawInput"),
  ("Controls.Throttle", "ControlsThrottle"),
  ("Controls.Gear", "ControlsGear"),
  ("Controls.Flaps", "ControlsFlaps"),
  ("Controls.Throttle1", "ControlsThrottle1"),
  ("Controls.Throttle2", "ControlsThrottle2"),
  ("Controls.Throttle3", "ControlsThrottle3"),
  ("Controls.Throttle4", "ControlsThrottle4"),
  ("Controls.AirBrake", "ControlsAirBrake"),
  ("Controls.WheelBrake.Left", "ControlsWheelBrakeLeft"),
  ("Controls.WheelBrake.Right", "ControlsWheelBrakeRight"),
  ("Controls.Collective", "ControlsCollective"),
  ("Communication.COM1Frequency", "NavigationCOM1Frequency"),
  ("Communication.COM1StandbyFrequency", "NavigationCOM1StandbyFrequency"),
  ("Autopilot.Master", "AutopilotMaster"),
  ("Autopilot.Heading", "AutopilotHeading"),
  ("Aircraft.EngineMaster1", "AircraftEngineMaster1"),
  ("Navigation.SelectedCourse1", "NavigationSelectedCourse1"),
  ("Navigation.SelectedCourse2", "NavigationSelectedCourse2"),
  ("Navigation.NAV1Frequency", "NavigationNAV1Frequency"),
  ("Navigation.NAV1StandbyFrequency", "NavigationNAV1StandbyFrequency"),
  ("Navigation.NAV1FrequencySwap", "NavigationNAV1FrequencySwap"),
  ("Navigation.NAV2Frequency", "NavigationNAV2Frequency"),
  ("Navigation.NAV2StandbyFrequency", "NavigationNAV2StandbyFrequency"),
  ("Navigation.NAV2FrequencySwap", "NavigationNAV2FrequencySwap"),
  ("Navigation.DME1Frequency", "NavigationDME1Frequency"),
  ("Navigation.DME1Distance", "NavigationDME1Distance"),
  ("Navigation.DME1Time", "NavigationDME1Time"),
  ("Navigation.DME1Speed", "NavigationDME1Speed"),
  ("Navigation.DME2Frequency", "NavigationDME2Frequency"),
  ("Navigation.DME2Distance", "NavigationDME2Distance"),
  ("Navigation.DME2Time", "NavigationDME2Time"),
  ("Navigation.DME2Speed", "NavigationDME2Speed"),
  ("Navigation.ILS1Course", "NavigationILS1Course"),
  ("Navigation.ILS1Frequency", "NavigationILS1Frequency"),
  ("Navigation.ILS1StandbyFrequency", "NavigationILS1StandbyFrequency"),
  ("Navigation.ILS1FrequencySwap", "NavigationILS1FrequencySwap"),
  ("Navigation.ILS2Course", "NavigationILS2Course")
]

/-- Rows 40–79 of `cmdHandlers` (split into chunks of 40 rows
only to keep elaboration of the literal cheap; the concatenation below is the
table). -/
def cmdHandlersChunk1 : List (String × String) := [
  ("Navigation.ILS2Frequency", "NavigationILS2Frequency"),
  ("Navigation.ILS2StandbyFrequency", "NavigationILS2StandbyFrequency"),
  ("Navigation.ILS2FrequencySwap", "NavigationILS2FrequencySwap"),
  ("Navigation.ADF1Frequency", "NavigationADF1Frequency"),
  ("Navigation.ADF1StandbyFrequency", "NavigationADF1StandbyFrequency"),
  ("Navigation.ADF1FrequencySwap", "NavigationADF1FrequencySwap"),
  ("Navigation.ADF2Frequency", "NavigationADF2Frequency"),
  ("Navigation.ADF2StandbyFrequency", "NavigationADF2StandbyFrequency"),
  ("Navigation.ADF2FrequencySwap", "NavigationADF2FrequencySwap"),
  ("Communication.COM2Frequency", "NavigationCOM2Frequency"),
  ("Communication.COM2StandbyFrequency", "NavigationCOM2StandbyFrequency"),
  ("Communication.COM1FrequencySwap", "NavigationCOM1FrequencySwap"),
  ("Communication.COM2FrequencySwap", "NavigationCOM2FrequencySwap"),
  ("Communication.COM3Frequency", "NavigationCOM3Frequency"),
  ("Communication.COM3StandbyFrequency", "NavigationCOM3StandbyFrequency"),
  ("Communication.COM3FrequencySwap", "NavigationCOM3FrequencySwap"),
  ("Communication.TransponderCode", "TransponderCode"),
  ("Communication.TransponderCursor", "TransponderCursor"),
  ("Aircraft.EngineMaster2", "AircraftEngineMaster2"),
  ("Aircraft.EngineMaster3", "AircraftEngineMaster3"),
  ("Aircraft.EngineMaster4", "AircraftEngineMaster4"),
  ("Aircraft.EngineThrottle1", "AircraftEngineThrottle1"),
  ("Aircraft.EngineThrottle2", "AircraftEngineThrottle2"),
  ("Aircraft.EngineThrottle3", "AircraftEngineThrottle3"),
  ("Aircraft.EngineThrottle4", "AircraftEngineThrottle4"),
  ("Aircraft.EngineRotationSpeed1", "AircraftEngineRotationSpeed1"),
  ("Aircraft.EngineRotationSpeed2", "AircraftEngineRotationSpeed2"),
  ("Aircraft.EngineRotationSpeed3", "AircraftEngineRotationSpeed3"),
  ("Aircraft.EngineRotationSpeed4", "AircraftEngineRotationSpeed4"),
  ("Aircraft.EngineRunning1", "AircraftEngineRunning1"),
  ("Aircraft.EngineRunning2", "AircraftEngineRunning2"),
  ("Aircraft.EngineRunning3", "AircraftEngineRunning3"),
  ("Aircraft.EngineRunning4", "AircraftEngineRunning4"),
  ("Autopilot.Disengage", "AutopilotDisengage"),
  ("Autopilot.VerticalSpeed", "AutopilotVerticalSpeed"),
  ("Autopilot.SelectedSpeed", "AutopilotSelectedSpeed"),
  ("Autopilot.SelectedAirspeed", "AutopilotSelectedAirspeed"),
  ("Autopilot.SelectedHeading", "AutopilotSelectedHeading"),
  ("Autopilot.SelectedAltitude", "AutopilotSelectedAltitude"),
  ("Autopilot.SelectedVerticalSpeed", "AutopilotSelectedVerticalSpeed")
]

/-- Rows 80–88 of `cmdHandlers` (split into chunks of 40 rows
only to keep elaboration of the literal cheap; the concatenation below is the
table). -/
def cmdHandlersChunk2 : List (String × String) := [
  ("Autopilot.SelectedAltitudeScale", "AutopilotSelectedAltitudeScale"),
  ("Autopilot.Engaged", "AutopilotEngaged"),
  ("Autopilot.UseMachNumber", "AutopilotUseMachNumber"),
  ("Autopilot.SpeedManaged", "AutopilotSpeedManaged"),
  ("Autopilot.TargetAirspeed", "AutopilotTargetAirspeed"),
  ("Autopilot.Aileron", "AutopilotAileron"),
  ("Autopilot.Elevator", "AutopilotElevator"),
  ("Autopilot.ThrottleEngaged", "AutopilotThrottleEngaged"),
  ("Autopilot.ThrottleCommand", "AutopilotThrottleCommand")
]

/-- The `command_handlers` hash map built by `CommandProcessor::InitializeHandlers`
(src lines 5847 ff.): each `command_handlers[name]` lambda copies one `MessageX`,
sets the value on it and returns it.  Each row records (command name, name of the
returned message in the message table).  Keys are unique, so association-list
lookup coincides with the hash-map lookup. -/
def commandHandlersTable : List (String × String) := cmdHandlersChunk0 ++ cmdHandlersChunk1 ++ cmdHandlersChunk2

/-- Rows 0–39 of `fallbackArms` (split into chunks of 40 rows
only to keep elaboration of the literal cheap; the concatenation below is the
table). -/
def fallbackArmsChunk0 : List (String × String) := [
  ("Controls.Throttle1", "ControlsThrottle1"),
  ("Controls.Throttle2", "ControlsThrottle2"),
  ("Controls.Throttle3", "ControlsThrottle3"),
  ("Controls.Throttle4", "ControlsThrottle4"),
  ("Controls.AirBrake", "ControlsAirBrake"),
  ("Aircraft.UniversalTime", "AircraftUniversalTime"),
  ("Aircraft.Altitude", "AircraftAltitude"),
  ("Aircraft.VerticalSpeed", "AircraftVerticalSpeed"),
  ("Aircraft.Pitch", "AircraftPitch"),
  ("Aircraft.Bank", "AircraftBank"),
  ("Aircraft.TrueHeading", "AircraftTrueHeading"),
  ("Aircraft.MagneticHeading", "AircraftMagneticHeading"),
  ("Aircraft.Latitude", "AircraftLatitude"),
  ("Aircraft.Longitude", "AircraftLongitude"),
  ("Aircraft.OnGround", "AircraftOnGround"),
  ("Aircraft.OnRunway", "AircraftOnRunway"),
  ("Aircraft.Gear", "AircraftGear"),
  ("Aircraft.Flaps", "AircraftFlaps"),
  ("Aircraft.Throttle", "AircraftThrottle"),
  ("Aircraft.ParkingBrake", "AircraftParkingBrake"),
  ("Aircraft.YawDamperEnabled", "AircraftYawDamperEnabled"),
  ("Aircraft.AutoPitchTrim", "AircraftAutoPitchTrim"),
  ("Communication.TransponderCode", "TransponderCode"),
  ("Communication.TransponderCursor", "TransponderCursor"),
  ("Autopilot.VerticalSpeed", "AutopilotVerticalSpeed"),
  ("Autopilot.SelectedAirspeed", "AutopilotSelectedAirspeed"),
  ("Autopilot.SelectedHeading", "AutopilotSelectedHeading"),
  ("Autopilot.SelectedAltitude", "AutopilotSelectedAltitude"),
  ("Autopilot.SelectedVerticalSpeed", "AutopilotSelectedVerticalSpeed"),
  ("Autopilot.ThrottleEngaged", "AutopilotThrottleEngaged"),
  ("Autopilot.Disengage", "AutopilotDisengage"),
  ("Autopilot.SelectedSpeed", "AutopilotSelectedSpeed"),
  ("Autopilot.SelectedAltitudeScale", "AutopilotSelectedAltitudeScale"),
  ("Autopilot.Engaged", "AutopilotEngaged"),
  ("Autopilot.UseMachNumber", "AutopilotUseMachNumber"),
  ("Autopilot.SpeedManaged", "AutopilotSpeedManaged"),
  ("Autopilot.TargetAirspeed", "AutopilotTargetAirspeed"),
  ("Autopilot.Aileron", "AutopilotAileron"),
  ("Autopilot.Elevator", "AutopilotElevator"),
  ("Autopilot.ThrottleCommand", "AutopilotThrottleCommand")
]

/-- Rows 40–79 of `fallbackArms` (split into chunks of 40 rows
only to keep elaboration of the literal cheap; the concatenation below is the
table). -/
def fallbackArmsChunk1 : List (String × String) := [
  ("AutoThrottle.Type", "AutoAutoThrottleType"),
  ("FlightDirector.Pitch", "FlightDirectorPitch"),
  ("FlightDirector.Bank", "FlightDirectorBank"),
  ("FlightDirector.Yaw", "FlightDirectorYaw"),
  ("Copilot.Heading", "CopilotHeading"),
  ("Copilot.Altitude", "CopilotAltitude"),
  ("Copilot.Airspeed", "CopilotAirspeed"),
  ("Copilot.VerticalSpeed", "CopilotVerticalSpeed"),
  ("Copilot.Aileron", "CopilotAileron"),
  ("Copilot.Elevator", "CopilotElevator"),
  ("Copilot.Throttle", "CopilotThrottle"),
  ("Copilot.AutoRudder", "CopilotAutoRudder"),
  ("Performance.Speed.VS0", "PerformanceSpeedVS0"),
  ("Performance.Speed.VS1", "PerformanceSpeedVS1"),
  ("Performance.Speed.VFE", "PerformanceSpeedVFE"),
  ("Performance.Speed.VNO", "PerformanceSpeedVNO"),
  ("Performance.Speed.VNE", "PerformanceSpeedVNE"),
  ("Performance.Speed.VAPP", "PerformanceSpeedVAPP"),
  ("Performance.Speed.Minimum", "PerformanceSpeedMinimum"),
  ("Performance.Speed.Maximum", "PerformanceSpeedMaximum"),
  ("Performance.Speed.MinimumFlapRetraction", "PerformanceSpeedMinimumFlapRetraction"),
  ("Performance.Speed.MaximumFlapExtension", "PerformanceSpeedMaximumFlapExtension"),
  ("Configuration.SelectedTakeOffFlaps", "ConfigurationSelectedTakeOffFlaps"),
  ("Configuration.SelectedLandingFlaps", "ConfigurationSelectedLandingFlaps"),
  ("Controls.AileronTrim", "ControlsAileronTrim"),
  ("Controls.RudderTrim", "ControlsRudderTrim"),
  ("Controls.Tiller", "ControlsTiller"),
  ("Controls.NoseWheelSteering", "ControlsNoseWheelSteering"),
  ("Controls.PedalsDisconnect", "ControlsPedalsDisconnect"),
  ("Controls.WheelBrake.Left", "ControlsWheelBrakeLeft"),
  ("Controls.WheelBrake.Right", "ControlsWheelBrakeRight"),
  ("Controls.Mixture", "ControlsMixture"),
  ("Controls.Mixture1", "ControlsMixture1"),
  ("Controls.Mixture2", "ControlsMixture2"),
  ("Controls.Mixture3", "ControlsMixture3"),
  ("Controls.Mixture4", "ControlsMixture4"),
  ("Controls.PropellerSpeed1", "ControlsPropellerSpeed1"),
  ("Controls.PropellerSpeed2", "ControlsPropellerSpeed2"),
  ("Controls.PropellerSpeed3", "ControlsPropellerSpeed3"),
  ("Controls.PropellerSpeed4", "ControlsPropellerSpeed4")
]

/-- Rows 80–119 of `fallbackArms` (split into chunks of 40 rows
only to keep elaboration of the literal cheap; the concatenation below is the
table). -/
def fallbackArmsChunk2 : List (String × String) := [
  ("Controls.ThrustReverse", "ControlsThrustReverse"),
  ("Controls.ThrustReverse1", "ControlsThrustReverse1"),
  ("Controls.ThrustReverse2", "ControlsThrustReverse2"),
  ("Controls.ThrustReverse3", "ControlsThrustReverse3"),
  ("Controls.ThrustReverse4", "ControlsThrustReverse4"),
  ("Controls.Collective", "ControlsCollective"),
  ("Controls.CyclicPitch", "ControlsCyclicPitch"),
  ("Controls.CyclicRoll", "ControlsCyclicRoll"),
  ("Controls.TailRotor", "ControlsTailRotor"),
  ("Controls.RotorBrake", "ControlsRotorBrake"),
  ("Controls.HelicopterThrottle1", "ControlsHelicopterThrottle1"),
  ("Controls.HelicopterThrottle2", "ControlsHelicopterThrottle2"),
  ("Controls.GliderAirBrake", "ControlsGliderAirBrake"),
  ("Aircraft.EngineMaster1", "AircraftEngineMaster1"),
  ("Aircraft.EngineMaster2", "AircraftEngineMaster2"),
  ("Aircraft.EngineMaster3", "AircraftEngineMaster3"),
  ("Aircraft.EngineMaster4", "AircraftEngineMaster4"),
  ("Aircraft.Starter", "AircraftStarter"),
  ("Aircraft.Starter1", "AircraftStarter1"),
  ("Aircraft.Starter2", "AircraftStarter2"),
  ("Aircraft.Starter3", "AircraftStarter3"),
  ("Aircraft.Starter4", "AircraftStarter4"),
  ("Aircraft.Ignition", "AircraftIgnition"),
  ("Aircraft.Ignition1", "AircraftIgnition1"),
  ("Aircraft.Ignition2", "AircraftIgnition2"),
  ("Aircraft.Ignition3", "AircraftIgnition3"),
  ("Aircraft.Ignition4", "AircraftIgnition4"),
  ("Aircraft.EngineThrottle1", "AircraftEngineThrottle1"),
  ("Aircraft.EngineThrottle2", "AircraftEngineThrottle2"),
  ("Aircraft.EngineThrottle3", "AircraftEngineThrottle3"),
  ("Aircraft.EngineThrottle4", "AircraftEngineThrottle4"),
  ("Aircraft.EngineRotationSpeed1", "AircraftEngineRotationSpeed1"),
  ("Aircraft.EngineRotationSpeed2", "AircraftEngineRotationSpeed2"),
  ("Aircraft.EngineRotationSpeed3", "AircraftEngineRotationSpeed3"),
  ("Aircraft.EngineRotationSpeed4", "AircraftEngineRotationSpeed4"),
  ("Aircraft.EngineRunning1", "AircraftEngineRunning1"),
  ("Aircraft.EngineRunning2", "AircraftEngineRunning2"),
  ("Aircraft.EngineRunning3", "AircraftEngineRunning3"),
  ("Aircraft.EngineRunning4", "AircraftEngineRunning4"),
  ("Aircraft.ThrottleLimit", "AircraftThrottleLimit")
]

/-- Rows 120–159 of `fallbackArms` (split into chunks of 40 rows
only to keep elaboration of the literal cheap; the concatenation below is the
table). -/
def fallbackArmsChunk3 : List (String × String) := [
  ("Aircraft.Reverse", "AircraftReverse"),
  ("Aircraft.APUAvailable", "AircraftAPUAvailable"),
  ("Aircraft.Power", "AircraftPower"),
  ("Aircraft.NormalizedPower", "AircraftNormalizedPower"),
  ("Aircraft.NormalizedPowerTarget", "AircraftNormalizedPowerTarget"),
  ("Simulation.Pause", "SimulationPause"),
  ("Simulation.Sound", "SimulationSound"),
  ("Simulation.LiftUp", "SimulationLiftUp"),
  ("Simulation.FlightInformation", "SimulationFlightInformation"),
  ("Simulation.MovingMap", "SimulationMovingMap"),
  ("Simulation.UseMouseControl", "SimulationUseMouseControl"),
  ("Simulation.TimeChange", "SimulationTimeChange"),
  ("Simulation.Visibility", "SimulationVisibility"),
  ("Simulation.PlaybackStart", "SimulationPlaybackStart"),
  ("Simulation.PlaybackStop", "SimulationPlaybackStop"),
  ("Warnings.MasterWarning", "WarningsMasterWarning"),
  ("Warnings.MasterCaution", "WarningsMasterCaution"),
  ("Warnings.EngineFire", "WarningsEngineFire"),
  ("Warnings.LowOilPressure", "WarningsLowOilPressure"),
  ("Warnings.LowFuelPressure", "WarningsLowFuelPressure"),
  ("Warnings.LowHydraulicPressure", "WarningsLowHydraulicPressure"),
  ("Warnings.LowVoltage", "WarningsLowVoltage"),
  ("Warnings.AltitudeAlert", "WarningsAltitudeAlert"),
  ("Warnings.WarningActive", "WarningsWarningActive"),
  ("Warnings.WarningMute", "WarningsWarningMute"),
  ("Pressurization.LandingElevation", "PressurizationLandingElevation"),
  ("Pressurization.LandingElevationManual", "PressurizationLandingElevationManual"),
  ("View.Internal", "ViewInternal"),
  ("View.Follow", "ViewFollow"),
  ("View.External", "ViewExternal"),
  ("View.Category", "ViewCategory"),
  ("View.Mode", "ViewMode"),
  ("View.Zoom", "ViewZoom"),
  ("View.Pan.Horizontal", "ViewPanHorizontal"),
  ("View.Pan.HorizontalMove", "ViewPanHorizontalMove"),
  ("View.Pan.Vertical", "ViewPanVertical"),
  ("View.Pan.VerticalMove", "ViewPanVerticalMove"),
  ("View.Pan.Center", "ViewPanCenter"),
  ("View.Look.Horizontal", "ViewLookHorizontal"),
  ("View.Look.Vertical", "ViewLookVertical")
]

/-- Rows 160–196 of `fallbackArms` (split into chunks of 40 rows
only to keep elaboration of the literal cheap; the concatenation below is the
table). -/
def fallbackArmsChunk4 : List (String × String) := [
  ("View.Roll", "ViewRoll"),
  ("View.OffsetX", "ViewOffsetX"),
  ("View.OffsetXMove", "ViewOffsetXMove"),
  ("View.OffsetY", "ViewOffsetY"),
  ("View.OffsetYMove", "ViewOffsetYMove"),
  ("View.OffsetZ", "ViewOffsetZ"),
  ("View.OffsetZMove", "ViewOffsetZMove"),
  ("View.Position", "ViewPosition"),
  ("View.Direction", "ViewDirection"),
  ("View.Up", "ViewUp"),
  ("View.FieldOfView", "ViewFieldOfView"),
  ("View.AspectRatio", "ViewAspectRatio"),
  ("View.FreeFieldOfView", "ViewFreeFieldOfView"),
  ("Command.Execute", "CommandExecute"),
  ("Command.Back", "CommandBack"),
  ("Command.Up", "CommandUp"),
  ("Command.Down", "CommandDown"),
  ("Command.Left", "CommandLeft"),
  ("Command.Right", "CommandRight"),
  ("Command.MoveHorizontal", "CommandMoveHorizontal"),
  ("Command.MoveVertical", "CommandMoveVertical"),
  ("Command.Rotate", "CommandRotate"),
  ("Command.Zoom", "CommandZoom"),
  ("Controls.FuelSelector", "C172FuelSelector"),
  ("Controls.FuelShutOff", "C172FuelShutOff"),
  ("Controls.HideYoke.Left", "C172HideYokeLeft"),
  ("Controls.HideYoke.Right", "C172HideYokeRight"),
  ("Controls.LeftSunBlocker", "C172LeftSunBlocker"),
  ("Controls.RightSunBlocker", "C172RightSunBlocker"),
  ("Controls.Lighting.LeftCabinOverheadLight", "C172LeftCabinLight"),
  ("Controls.Lighting.RightCabinOverheadLight", "C172RightCabinLight"),
  ("Controls.Magnetos1", "C172Magnetos1"),
  ("Doors.Left", "C172LeftDoor"),
  ("Doors.Right", "C172RightDoor"),
  ("Windows.Left", "C172LeftWindow"),
  ("Windows.Right", "C172RightWindow"),
  ("LeftYoke.Button", "C172LeftYokeButton")
]

/-- The fallback `if (var_name == …)` chain of `CommandProcessor::ParseCommand`
(src lines 6629 ff.) followed by the helper functions in call order
(`ProcessAircraftVariables` … `ProcessC172SpecificVariables`): each arm sets the
value on one `MessageX` and returns it.  Source arm order is preserved; first
match wins, exactly as in the chain. -/
def parseFallbackArms : List (String × String) := fallbackArmsChunk0 ++ fallbackArmsChunk1 ++ fallbackArmsChunk2 ++ fallbackArmsChunk3 ++ fallbackArmsChunk4


/-- The `hash_to_index` map of `VariableMapper`.  The constructor never inserts
into it (the comment at src line 1550 defers hash mappings to code that was
never written), so the map is empty for the whole program run. -/
def hashToIndexPairs : List (Nat × Nat) := []

/-- `VariableMapper::GetIndex(const std::string&)` (src lines 1556–1560):
returns the mapped index, or `-1` when the name is absent. -/
def nameGetIndex (name : String) : Int :=
  match nameToIndexPairs.lookup name with
  | some i => (i : Int)
  | none => -1

/-- `VariableMapper::GetIndex(uint64_t)` (src lines 1562–1564): returns the
mapped index, or `-1` when the hash is absent.  Since `hash_to_index` is never
populated, every lookup misses. -/
def hashGetIndex (hash : Nat) : Int :=
  match hashToIndexPairs.lookup hash with
  | some i => (i : Int)
  | none => -1

/-- Access of a variable name in the `MESSAGE_LIST` table: the access column of
the first row whose variable name matches. -/
def findVarAccess (varName : String) : Option MsgAccess :=
  (messageListEntries.find? (fun e => e.varName == varName)).map RegEntry.access

/-! ## Command ingress (`CommandProcessor`)

Source lines 6549–7840.  `ParseCommand` extracts the `variable` and `value`
fields of the JSON command, then selects the message to build: first the
`command_handlers` hash map, then the fallback chain.  Which message is
returned depends only on the variable name (every handler and every arm sets
the commanded value on a fixed message object), so the selection is embedded
as a name-indexed lookup returning the name of the produced message; a `none`
result is the `empty_msg` (data type `None`) that `ProcessCommands` filters
out. -/

/-- Message selection of `CommandProcessor::ParseCommand` for an extracted
variable name: the `command_handlers` map is consulted first (src line 6607),
then the fallback chain (src lines 6629 ff.).  No access check occurs anywhere
on this path. -/
def translateCommandName (varName : String) : Option String :=
  match commandHandlersTable.lookup varName with
  | some msg => some msg
  | none => parseFallbackArms.lookup varName

/-- `CommandProcessor::ProcessCommands` (src lines 6433–6444): translates each
command in order and keeps the results that are not the empty message. -/
def processCommands {α : Type} (parse : String → Option α) (cmds : List String) : List α :=
  cmds.filterMap parse

/-- `GetPendingCommands` of either server (src lines 4844–4854 for TCP): pops
the queue front to back into the returned vector, preserving arrival order. -/
def drainQueue : List String → List String
  | [] => []
  | c :: rest => c :: drainQueue rest

/-- The command pass of `AeroflyBridge::Update` (src lines 8277–8293): the TCP
queue is drained first, the WebSocket queue is appended after it, and the
merged list is translated in order by `ProcessCommands`. -/
def updateCommandMessages {α : Type} (parse : String → Option α)
    (tcpQueue wsQueue : List String) : List α :=
  processCommands parse (drainQueue tcpQueue ++ drainQueue wsQueue)

/-! ## WebSocket handshake helpers (`ws_util`, src lines 5339–5427)

SHA-1 over byte lists, with 32-bit words as naturals reduced mod `2 ^ 32`, and
the Base64 encoder, both transcribed from the `ws_util` helpers.  The
incremental `sha1_update`/`sha1_final` buffering of the source is equivalent,
for a single full message, to padding the message and transforming the 64-byte
chunks in order, which is the form used here. -/

/-- 32-bit left rotation (`ws_util::rol`). -/
def rol32 (v b : Nat) : Nat :=
  ((v <<< b) % 4294967296) ||| (v >>> (32 - b))

/-- The message-schedule extension of `sha1_transform`: words 16–79, each the
1-bit rotation of the xor of words `i-3`, `i-8`, `i-14`, `i-16`. -/
def sha1ExtendW (w : List Nat) : List Nat :=
  (List.range 64).foldl
    (fun w i =>
      let j := i + 16
      w ++ [rol32 ((w.getD (j-3) 0) ^^^ (w.getD (j-8) 0) ^^^
                   (w.getD (j-14) 0) ^^^ (w.getD (j-16) 0)) 1])
    w

/-- The round function `f` of `sha1_transform`. -/
def sha1F (i b c d : Nat) : Nat :=
  if i < 20 then (b &&& c) ||| ((b ^^^ 4294967295) &&& d)
  else if i < 40 then b ^^^ c ^^^ d
  else if i < 60 then (b &&& c) ||| (b &&& d) ||| (c &&& d)
  else b ^^^ c ^^^ d

/-- The round constant `k` of `sha1_transform`. -/
def sha1K (i : Nat) : Nat :=
  if i < 20 then 0x5A827999
  else if i < 40 then 0x6ED9EBA1
  else if i < 60 then 0x8F1BBCDC
  else 0xCA62C1D6

/-- `ws_util::sha1_transform`: one 64-byte block folded into the 5-word
state. -/
def sha1Transform (st : List Nat) (block : List Nat) : List Nat :=
  let w16 := (List.range 16).map (fun i =>
    ((block.getD (i*4) 0) <<< 24) ||| ((block.getD (i*4+1) 0) <<< 16) |||
    ((block.getD (i*4+2) 0) <<< 8) ||| (block.getD (i*4+3) 0))
  let w := sha1ExtendW w16
  let fin := (List.range 80).foldl
    (fun (s : Nat × Nat × Nat × Nat × Nat) i =>
      let (a, b, c, d, e) := s
      let t := (rol32 a 5 + sha1F i b c d + e + sha1K i + w.getD i 0) % 4294967296
      (t, a, rol32 b 30, c, d))
    (st.getD 0 0, st.getD 1 0, st.getD 2 0, st.getD 3 0, st.getD 4 0)
  let (a, b, c, d, e) := fin
  [(st.getD 0 0 + a) % 4294967296, (st.getD 1 0 + b) % 4294967296,
   (st.getD 2 0 + c) % 4294967296, (st.getD 3 0 + d) % 4294967296,
   (st.getD 4 0 + e) % 4294967296]

/-- Splits a byte list into 64-byte chunks; the fuel argument (any bound on the
number of chunks, such as the length itself) keeps the recursion structural. -/
def chunk64 : Nat → List Nat → List (List Nat)
  | 0, _ => []
  | _ + 1, [] => []
  | fuel + 1, bytes => bytes.take 64 :: chunk64 fuel (bytes.drop 64)

/-- Folds every 64-byte chunk of a padded message into the state. -/
def sha1Chunks (st : List Nat) (bytes : List Nat) : List Nat :=
  (chunk64 bytes.length bytes).foldl sha1Transform st

/-- The padding performed by `sha1_final`: a `0x80` byte, zero bytes until the
length is 56 mod 64, then the bit length as 8 big-endian bytes. -/
def sha1Pad (msg : List Nat) : List Nat :=
  let bitLen := msg.length * 8
  let zeros := (64 + 56 - (msg.length + 1) % 64) % 64
  msg ++ [128] ++ List.replicate zeros 0 ++
    ((List.range 8).map (fun i => (bitLen >>> ((7 - i) * 8)) % 256))

/-- The 20-byte SHA-1 digest of a byte list (`sha1_init` state, all chunks of
the padded message, big-endian serialization of the final state). -/
def sha1Digest (msg : List Nat) : List Nat :=
  let st := sha1Chunks [0x67452301, 0xEFCDAB89, 0x98BADCFE, 0x10325476, 0xC3D2E1F0]
    (sha1Pad msg)
  (List.range 20).map (fun i => ((st.getD (i / 4) 0) >>> ((3 - i % 4) * 8)) % 256)

/-- The Base64 alphabet of `ws_util::base64_encode`. -/
def b64Table : List Char :=
  "ABCDEFGHIJKLMNOPQRSTUVWXYZabcdefghijklmnopqrstuvwxyz0123456789+/".toList

/-- `ws_util::base64_encode`: groups of three bytes become four alphabet
characters; a final group of one or two bytes is zero-extended and the unused
positions emit `=`. -/
def base64Encode : List Nat → List Char
  | [] => []
  | [a] =>
      let n := a <<< 16
      [b64Table.getD ((n >>> 18) % 64) 'A', b64Table.getD ((n >>> 12) % 64) 'A', '=', '=']
  | [a, b] =>
      let n := (a <<< 16) ||| (b <<< 8)
      [b64Table.getD ((n >>> 18) % 64) 'A', b64Table.getD ((n >>> 12) % 64) 'A',
       b64Table.getD ((n >>> 6) % 64) 'A', '=']
  | a :: b :: c :: rest =>
      let n := (a <<< 16) ||| (b <<< 8) ||| c
      b64Table.getD ((n >>> 18) % 64) 'A' :: b64Table.getD ((n >>> 12) % 64) 'A' ::
      b64Table.getD ((n >>> 6) % 64) 'A' :: b64Table.getD (n % 64) 'A' :: base64Encode rest

/-- The fixed handshake GUID of RFC 6455, as in
`WebSocketServerInterface::HandleWebSocketHandshake` (src line 5649). -/
def wsGUID : String := "258EAFA5-E914-47DA-95CA-C5AB0DC85B11"

/-- The bytes of an ASCII string, as the handshake sees them. -/
def strBytes (s : String) : List Nat := s.toList.map Char.toNat

/-- The `Sec-WebSocket-Accept` computation of `HandleWebSocketHandshake`
(src lines 5648–5654): Base64 of the SHA-1 digest of the client key
concatenated with the GUID. -/
def handshakeAccept (key : String) : String :=
  String.mk (base64Encode (sha1Digest (strBytes (key ++ wsGUID))))

/-! ## WebSocket frame processing (`ProcessWebSocketFrames`, src lines 5673–5727)

The per-client receive buffer is a byte list; the loop parses one frame per
iteration and dispatches on the opcode.  The command queue is the list of text
payloads pushed so far.  The fuel argument (any bound on the number of frames,
such as the buffer length) keeps the recursion structural; every complete
frame consumes at least two bytes. -/

/-- The frame-header parse of one pass of the `for (;;)` loop of
`ProcessWebSocketFrames`: header bytes `b0`/`b1`, the 7-bit, 16-bit or 64-bit
payload length, the masking key when the MASK bit is set, then the payload,
xor-unmasked only when the MASK bit is set.  Returns the opcode, the payload
and the remaining buffer, or `none` when the frame is still incomplete (the
source then leaves the loop and keeps the buffer). -/
def wsReadFrame (buf : List Nat) : Option (Nat × List Nat × List Nat) :=
  if buf.length < 2 then none else
  let b0 := buf.getD 0 0
  let b1 := buf.getD 1 0
  let opcode := b0 &&& 15
  let masked := (b1 &&& 128) != 0
  let len0 := b1 &&& 127
  let lenPos : Option (Nat × Nat) :=
    if len0 == 126 then
      if buf.length < 4 then none
      else some (((buf.getD 2 0) <<< 8) ||| buf.getD 3 0, 4)
    else if len0 == 127 then
      if buf.length < 10 then none
      else some ((List.range 8).foldl (fun l i => (l <<< 8) ||| buf.getD (2 + i) 0) 0, 10)
    else some (len0, 2)
  match lenPos with
  | none => none
  | some (len, pos0) =>
    let maskPos : Option (List Nat × Nat) :=
      if masked then
        if buf.length < pos0 + 4 then none
        else some ([buf.getD pos0 0, buf.getD (pos0+1) 0,
                    buf.getD (pos0+2) 0, buf.getD (pos0+3) 0], pos0 + 4)
      else some ([0, 0, 0, 0], pos0)
    match maskPos with
    | none => none
    | some (mask, pos) =>
      if buf.length < pos + len then none else
      let payload := (((buf.drop pos).take len).enum).map
        (fun p => if masked then p.2 ^^^ mask.getD (p.1 % 4) 0 else p.2)
      some (opcode, payload, buf.drop (pos + len))

/-- The `for (;;)` loop of `ProcessWebSocketFrames`: parses one frame per
iteration and dispatches on the opcode — close (8) stops processing, text (1)
pushes the payload onto the command queue, everything else (ping, pong,
binary, continued frames) leaves the queue unchanged; an incomplete frame ends
the loop with the queue as is.  The fuel argument (any bound on the number of
frames, such as the buffer length) keeps the recursion structural; every
complete frame consumes at least two bytes. -/
def processWSBuffer : Nat → List Nat → List (List Nat) → List (List Nat)
  | 0, _, queue => queue
  | fuel + 1, buf, queue =>
    match wsReadFrame buf with
    | none => queue
    | some (opcode, payload, rest) =>
      if opcode == 8 then queue
      else if opcode == 1 then processWSBuffer fuel rest (queue ++ [payload])
      else processWSBuffer fuel rest queue

/-- `ProcessWebSocketFrames` on a freshly received buffer: runs the frame loop
with enough fuel for every frame the buffer could hold. -/
def processWSFrames (buf : List Nat) (queue : List (List Nat)) : List (List Nat) :=
  processWSBuffer (buf.length + 1) buf queue

/-! ## Host tick output (`Aerofly_FS_4_External_DLL_Update`, src lines 8392–8436)

The response loop zeroes the outgoing size and message count and then calls
`msg.AddToByteStream(stream, size, count)` for every translated command.  The
wire encoding of one message is an SDK contract (the header is opaque to the
bridge), so a message is embedded as its list of wire bytes.  Modelled from
the spec: `AddToByteStream` appends the bytes of the message to the stream,
adds their number to the size and increments the count — the size-capping that
the spec attributes to the entry point would have to live in this loop, and
the loop never reads `message_list_sent_byte_stream_size_max`. -/

/-- The response-building loop of the tick entry point: returns the final
`(message_list_sent_byte_stream_size, message_list_sent_num_messages)`.  The
`capacity` parameter is `message_list_sent_byte_stream_size_max`, which the
source accepts and never uses. -/
def dllUpdateBuildResponse (sentMessages : List (List Nat)) (capacity : Nat) : Nat × Nat :=
  sentMessages.foldl (fun acc msg => (acc.1 + msg.length, acc.2 + 1)) (0, 0)

/-- A cheap numeric key on strings (byte fold), used only to make the
distinctness check of the 357 registry names feasible for the kernel: if the
keys are pairwise distinct then so are the names. -/
def strKey (s : String) : Nat :=
  s.toList.foldl (fun acc c => acc * 256 + c.toNat) 0


/-! ## Helper lemmas -/

theorem clampNewValue_inUnit_of_ne_nan (v : FpVal) (hv : v ≠ .nan) :
    (clampNewValue v).inUnitInterval = true := by
  cases v with
  | nan => exact absurd rfl hv
  | posInf =>
      simp only [clampNewValue, FpVal.ltZero, FpVal.gtOne, FpVal.inUnitInterval]
      norm_num
  | negInf =>
      simp only [clampNewValue, FpVal.ltZero, FpVal.gtOne, FpVal.inUnitInterval]
      norm_num
  | finite q =>
      simp only [clampNewValue, FpVal.ltZero, FpVal.gtOne]
      by_cases h0 : q < 0
      · simp [h0, FpVal.gtOne, FpVal.inUnitInterval]
        norm_num
      · by_cases h1 : q > 1
        · simp [h0, h1, FpVal.gtOne, FpVal.inUnitInterval]
        · simp [h0, h1, FpVal.gtOne, FpVal.inUnitInterval]
          constructor <;> linarith

theorem finite_add_ne_nan (q : ℚ) (d : FpVal) (hd : d ≠ .nan) :
    (FpVal.finite q).add d ≠ .nan := by
  cases d with
  | nan => exact absurd rfl hd
  | finite r => simp [FpVal.add]
  | posInf => simp [FpVal.add]
  | negInf => simp [FpVal.add]

theorem inUnitInterval_finite (v : FpVal) (hv : v.inUnitInterval = true) :
    ∃ q : ℚ, v = .finite q := by
  cases v with
  | finite q => exact ⟨q, rfl⟩
  | nan => exact absurd hv (by simp [FpVal.inUnitInterval])
  | posInf => exact absurd hv (by simp [FpVal.inUnitInterval])
  | negInf => exact absurd hv (by simp [FpVal.inUnitInterval])

theorem processStepControl_step_inUnit (d : FpVal) (hd : d ≠ .nan) (s : StepSlot)
    (hs : s.field.inUnitInterval = true) :
    ((processStepControl true d s).field).inUnitInterval = true := by
  obtain ⟨q, hq⟩ := inUnitInterval_finite s.field hs
  have hadd : s.field.add d ≠ .nan := hq ▸ finite_add_ne_nan q d hd
  simpa [processStepControl] using clampNewValue_inUnit_of_ne_nan _ hadd

theorem applyStepDeltas_inUnit (deltas : List FpVal) (hd : ∀ d ∈ deltas, d ≠ .nan)
    (s : StepSlot) (hs : s.field.inUnitInterval = true) :
    ((applyStepDeltas deltas s).field).inUnitInterval = true := by
  induction deltas generalizing s with
  | nil => exact hs
  | cons d rest ih =>
      simp only [applyStepDeltas, List.foldl_cons] at *
      exact ih (fun x hx => hd x (List.mem_cons_of_mem d hx))
        (processStepControl true d s)
        (processStepControl_step_inUnit d (hd d (List.mem_cons_self d rest)) s hs)

theorem mutationsGuarded_mutedList (muts : List Nat) :
    mutationsGuarded 0 (muts.map SnapWrite.mutation ++ [.dataValid 1]) = true := by
  induction muts with
  | nil => rfl
  | cons m rest ih => simpa [mutationsGuarded] using ih

theorem lookup_of_keys_nodup {β : Type} (l : List (String × β))
    (hnd : (l.map Prod.fst).Nodup) :
    ∀ p ∈ l, l.lookup p.1 = some p.2 := by
  induction l with
  | nil => intro p hp; cases hp
  | cons x xs ih =>
      obtain ⟨k, v⟩ := x
      intro p hp
      simp only [List.map_cons, List.nodup_cons] at hnd
      rcases List.mem_cons.mp hp with h | h
      · subst h; simp [List.lookup]
      · have hne : p.1 ≠ k := by
          intro he
          exact hnd.1 (he ▸ List.mem_map_of_mem Prod.fst h)
        have hbeq : (p.1 == k) = false := beq_eq_false_iff_ne.mpr hne
        simp only [List.lookup, hbeq]
        exact ih hnd.2 p h

theorem drainQueue_eq_self (q : List String) : drainQueue q = q := by
  induction q with
  | nil => rfl
  | cons c rest ih => simp [drainQueue, ih]

theorem land127_of_lt (n : Nat) (h : n < 128) : n &&& 127 = n := by
  have := Nat.and_pow_two_sub_one_eq_mod n 7
  simp at this
  omega

theorem land128_of_zero_bit (n : Nat) (h : n < 128) : n &&& 128 = 0 := by
  have h2 : n &&& 2 ^ 7 = (n.testBit 7).toNat * 2 ^ 7 := Nat.and_two_pow n 7
  have h3 : n.testBit 7 = false := by
    simp [Nat.testBit, Nat.shiftRight_eq_div_pow]
    omega
  simp [h3] at h2
  simpa using h2

theorem processWSBuffer_empty (fuel : Nat) (queue : List (List Nat)) :
    processWSBuffer fuel [] queue = queue := by
  cases fuel <;> simp [processWSBuffer, wsReadFrame]

theorem wsReadFrame_unmasked_text (p : List Nat) (hlen : p.length < 126) :
    wsReadFrame (129 :: p.length :: p) = some (1, p, []) := by
  have hm : p.length &&& 128 = 0 := land128_of_zero_bit _ (by omega)
  have h7 : p.length &&& 127 = p.length := land127_of_lt _ (by omega)
  have hne126 : (p.length == 126) = false := by simp; omega
  have hne127 : (p.length == 127) = false := by simp; omega
  unfold wsReadFrame
  simp only [List.length_cons, List.getD, List.get?_cons_zero, List.get?_cons_succ,
    Option.getD_some, h7, hm, hne126, hne127]
  rw [if_neg (by omega : ¬ (p.length + 1 + 1 < 2))]
  norm_num
  exact ⟨by omega, by decide, by omega⟩


/-! ## Claim theorems -/

/-- Claim C1, counterexample.  The claim states that a tick with one applied
mutation produces the write sequence `data_valid ← 0; mutation; timestamp_us;
update_counter; data_valid ← 1`.  The actual trace of `UpdateData` for one
message differs: timestamp and counter are written before the mutation. -/
theorem C1_counterexample :
    updateDataTrace [7] ≠
      .dataValid 0 :: (List.map .mutation [7] ++ [.timestampUs, .updateCounter, .dataValid 1]) := by
  decide

/-- Claim C1, amended.  Every update of the snapshot performed for a tick
follows exactly the sequence: `data_valid ← 0`, then `timestamp_us` is
written and `update_counter` is incremented, then the per-message mutations
are applied, and finally `data_valid ← 1`; in particular no mutation of a
variable slot happens while `data_valid = 1`, but `timestamp_us` and
`update_counter` are written before the mutations of the tick, not after. -/
theorem C1_update_write_sequence (muts : List Nat) :
    updateDataTrace muts
      = [.dataValid 0, .timestampUs, .updateCounter]
          ++ muts.map .mutation ++ [.dataValid 1]
    ∧ mutationsGuarded 1 (updateDataTrace muts) = true := by
  refine ⟨by simp [updateDataTrace], ?_⟩
  simp only [updateDataTrace, mutationsGuarded]
  exact mutationsGuarded_mutedList muts

/-- Claim C2, counterexample.  A scalar handler given a NaN message value
stores NaN into the addressed slot of `all_variables` — not `0.0` — so after
the decoder returns a scalar slot of the snapshot holds a non-finite value. -/
theorem C2_counterexample :
    applyScalarHandler [FpVal.finite 0, FpVal.finite 0] 1 FpVal.nan
        = [FpVal.finite 0, FpVal.nan]
    ∧ FpVal.nan ≠ FpVal.finite 0
    ∧ ((applyScalarHandler [FpVal.finite 0, FpVal.finite 0] 1 FpVal.nan).any
        (fun v => !v.isFinite)) = true := by
  refine ⟨by decide, by decide, by decide⟩

/-- Claim C2, amended.  For every incoming telemetry message carrying a scalar
value, the value is stored into the addressed scalar slot verbatim and every
other slot is unchanged; no finiteness coercion happens anywhere on the path,
so a NaN or non-finite message value leaves a NaN or non-finite value in the
snapshot. -/
theorem C2_scalar_stored_verbatim (snap : List FpVal) (idx : Nat) (v : FpVal)
    (h : idx < snap.length) :
    (applyScalarHandler snap idx v).get? idx = some v
    ∧ ∀ j, j ≠ idx → (applyScalarHandler snap idx v).get? j = snap.get? j := by
  constructor
  · simpa [applyScalarHandler] using List.get?_set_eq_of_lt v h
  · intro j hj
    simpa [applyScalarHandler] using List.get?_set_ne v snap (Ne.symm hj)

/-- Claim C2, witness: the amended theorem applied to a two-slot snapshot and
a NaN message for slot 1. -/
theorem C2_witness :
    (applyScalarHandler [FpVal.finite 0, FpVal.finite 0] 1 FpVal.nan).get? 1
        = some FpVal.nan
    ∧ ∀ j, j ≠ 1 →
        (applyScalarHandler [FpVal.finite 0, FpVal.finite 0] 1 FpVal.nan).get? j
          = [FpVal.finite 0, FpVal.finite 0].get? j :=
  C2_scalar_stored_verbatim [FpVal.finite 0, FpVal.finite 0] 1 FpVal.nan (by decide)

/-- Claim C3, counterexample.  A single step-delta message carrying NaN
refutes the claimed invariant: starting from the zero-initialized slot, the
sum `0.0 + NaN` is NaN, both range checks of `ProcessStepControl` are false on
NaN, and NaN is stored — a value outside `[0, 1]`. -/
theorem C3_counterexample :
    (applyStepDeltas [FpVal.nan] zeroSlot).field = FpVal.nan
    ∧ ((applyStepDeltas [FpVal.nan] zeroSlot).field).inUnitInterval = false :=
  ⟨rfl, rfl⟩

/-- Claim C3, amended.  For every step-control variable, starting from the
zero-initialized snapshot, applying any finite sequence of step-delta messages
whose values are not NaN leaves the stored scalar in `[0, 1]` (infinite deltas
are clamped too), and the delta sequence `+0.3, +0.3, +0.6, -1.0, -0.2`
applied from `0.0` yields the successive stored values
`0.3, 0.6, 1.0, 0.0, 0.0`; a NaN delta, however, fails both range checks and
NaN is stored. -/
theorem C3_step_deltas_clamped_unless_nan :
    (∀ deltas : List FpVal, (∀ d ∈ deltas, d ≠ .nan) →
        ((applyStepDeltas deltas zeroSlot).field).inUnitInterval = true)
    ∧ stepValueTrace
        [.finite (3/10), .finite (3/10), .finite (6/10), .finite (-1), .finite (-2/10)]
        zeroSlot
      = [.finite (3/10), .finite (6/10), .finite 1, .finite 0, .finite 0] := by
  constructor
  · intro deltas hd
    exact applyStepDeltas_inUnit deltas hd zeroSlot
      (by norm_num [zeroSlot, FpVal.inUnitInterval])
  · norm_num [stepValueTrace, zeroSlot, List.scanl, processStepControl, clampNewValue,
      FpVal.add, FpVal.ltZero, FpVal.gtOne]

/-- Claim C3, witness: the amended theorem applied to the one-delta sequence
`[+0.5]`. -/
theorem C3_witness :
    ((applyStepDeltas [FpVal.finite (1/2)] zeroSlot).field).inUnitInterval = true :=
  C3_step_deltas_clamped_unless_nan.1 [.finite (1/2)] (by decide)

/-- Claim C4, counterexample (negation of the hash half of the claim).
Whatever function the stable 64-bit hash of a name is, looking a registered
variable up by the hash of its name cannot return the registered index: the
`hash_to_index` table is never populated, so `GetIndex(uint64_t)` returns `-1`
on every input, while `Aircraft.Altitude` is registered with index 1. -/
theorem C4_counterexample :
    ¬ ∀ hashOf : String → Nat, ∀ p ∈ nameToIndexPairs,
        hashGetIndex (hashOf p.1) = (p.2 : Int) := by
  intro h
  have h1 := h (fun _ => 0) ("Aircraft.Altitude", 1) (by decide)
  have h2 : hashGetIndex 0 = -1 := rfl
  rw [h2] at h1
  exact absurd h1 (by decide)

set_option maxRecDepth 10000 in
set_option maxHeartbeats 4000000 in
/-- Claim C4, amended.  For every variable registered in the registry with
logical index `i`, looking the variable up by name returns `i`, and no two
registered variables share a name; lookup of an unknown name returns none
(`-1`, never an exception).  Lookup by hash, however, returns none (`-1`) for
every input, because the `hash_to_index` table is never populated. -/
theorem C4_registry_lookup :
    (∀ p ∈ nameToIndexPairs, nameGetIndex p.1 = (p.2 : Int))
    ∧ (nameToIndexPairs.map Prod.fst).Nodup
    ∧ (∀ h : Nat, hashGetIndex h = -1)
    ∧ nameGetIndex "Totally.Unknown" = -1 := by
  have hnd : (nameToIndexPairs.map Prod.fst).Nodup := by
    have hk : ((nameToIndexPairs.map Prod.fst).map strKey).Nodup := by decide
    exact hk.of_map
  refine ⟨?_, hnd, fun _ => rfl, by decide⟩
  intro p hp
  simp [nameGetIndex, lookup_of_keys_nodup nameToIndexPairs hnd p hp]

/-- Claim C4, witness: the amended theorem applied to the registered pair
(`Aircraft.Altitude`, 1). -/
theorem C4_witness : nameGetIndex "Aircraft.Altitude" = (1 : Int) :=
  C4_registry_lookup.1 ("Aircraft.Altitude", 1) (by decide)

/-- Claim C5, counterexample.  `Aircraft.Altitude` is registered with access
`Read`, yet a command naming it is translated to a message (the
`ProcessAircraftVariables` arm at src lines 6718–6722), and the message
survives `ProcessCommands` into the output list; the claim says the command is
dropped. -/
theorem C5_counterexample :
    findVarAccess "Aircraft.Altitude" = some MsgAccess.read
    ∧ translateCommandName "Aircraft.Altitude" = some "AircraftAltitude"
    ∧ processCommands translateCommandName ["Aircraft.Altitude"]
        = ["AircraftAltitude"] := by
  refine ⟨by decide, by decide, by decide⟩

/-- Claim C5, amended.  A command whose variable name has no entry in the
command-handler map and no arm in the fallback chain is dropped (no message in
the output list); the registered access is never consulted, and a command
naming a variable registered with access `read` — such as `Aircraft.Altitude`
— does produce its simulator message in the output list. -/
theorem C5_no_access_check :
    (∀ name, commandHandlersTable.lookup name = none →
        parseFallbackArms.lookup name = none →
        translateCommandName name = none)
    ∧ translateCommandName "Totally.Unknown" = none
    ∧ findVarAccess "Aircraft.Altitude" = some MsgAccess.read
    ∧ translateCommandName "Aircraft.Altitude" = some "AircraftAltitude" := by
  refine ⟨?_, by decide, by decide, by decide⟩
  intro name h1 h2
  simp [translateCommandName, h1, h2]

/-- Claim C5, witness: the amended theorem applied to the unknown name
`Totally.Unknown`. -/
theorem C5_witness : translateCommandName "Totally.Unknown" = none :=
  C5_no_access_check.1 "Totally.Unknown" (by decide) (by decide)

/-- Claim C6, confirmed.  Within one tick the host output is the TCP-channel
translations followed by the WebSocket-channel translations, and on either
channel two valid commands submitted in order A then B are translated to
messages appearing in that order (FIFO per channel). -/
theorem C6_command_order {α : Type} (parse : String → Option α)
    (tcp ws l₁ l₂ l₃ : List String) (A B : String) (a b : α)
    (hA : parse A = some a) (hB : parse B = some b) :
    updateCommandMessages parse tcp ws
      = processCommands parse tcp ++ processCommands parse ws
    ∧ updateCommandMessages parse (l₁ ++ A :: (l₂ ++ B :: l₃)) ws
      = processCommands parse l₁
          ++ a :: (processCommands parse l₂
            ++ b :: (processCommands parse l₃ ++ processCommands parse ws))
    ∧ updateCommandMessages parse tcp (l₁ ++ A :: (l₂ ++ B :: l₃))
      = processCommands parse tcp
          ++ (processCommands parse l₁
            ++ a :: (processCommands parse l₂ ++ b :: processCommands parse l₃)) := by
  refine ⟨?_, ?_, ?_⟩ <;>
    simp [updateCommandMessages, processCommands, drainQueue_eq_self,
      List.filterMap_append, hA, hB]

/-- Fixed parse function for the C6 witness: command `A` translates to message
1, command `B` to message 2, everything else is invalid. -/
def witnessParse (s : String) : Option Nat :=
  if s = "A" then some 1 else if s = "B" then some 2 else none

/-- Claim C6, witness: the theorem applied to the TCP queue `[A]` and the
WebSocket queue `[B]` with the decomposition `[] ++ A :: ([] ++ B :: [])`. -/
theorem C6_witness :
    updateCommandMessages witnessParse ["A"] ["B"]
      = processCommands witnessParse ["A"] ++ processCommands witnessParse ["B"]
    ∧ updateCommandMessages witnessParse ([] ++ "A" :: ([] ++ "B" :: [])) ["B"]
      = processCommands witnessParse []
          ++ 1 :: (processCommands witnessParse []
            ++ 2 :: (processCommands witnessParse [] ++ processCommands witnessParse ["B"]))
    ∧ updateCommandMessages witnessParse ["A"] ([] ++ "A" :: ([] ++ "B" :: []))
      = processCommands witnessParse ["A"]
          ++ (processCommands witnessParse []
            ++ 1 :: (processCommands witnessParse [] ++ 2 :: processCommands witnessParse [])) :=
  C6_command_order witnessParse ["A"] ["B"] [] [] [] "A" "B" 1 2 (by decide) (by decide)

set_option maxRecDepth 20000 in
set_option maxHeartbeats 4000000 in
/-- Claim C7, confirmed.  The `Sec-WebSocket-Accept` value sent in the 101
response is the Base64 of the SHA-1 digest of the client key concatenated with
the RFC 6455 GUID, and for the key `dGhlIHNhbXBsZSBub25jZQ==` the computed
value is `s3pPLMBiTxaQ9kYGzzhZRbK+xOo=`. -/
theorem C7_handshake_accept :
    (∀ key : String,
        handshakeAccept key
          = String.mk (base64Encode (sha1Digest (strBytes (key ++ wsGUID)))))
    ∧ handshakeAccept "dGhlIHNhbXBsZSBub25jZQ==" = "s3pPLMBiTxaQ9kYGzzhZRbK+xOo=" :=
  ⟨fun _ => rfl, by decide⟩

/-- Claim C8, counterexample.  A client-to-server text frame with the MASK bit
clear (bytes `0x81 0x05` followed by the payload `hello`) is not rejected: its
payload is enqueued into the command queue. -/
theorem C8_counterexample :
    processWSFrames [129, 5, 104, 101, 108, 108, 111] []
      = [[104, 101, 108, 108, 111]] := by
  decide

/-- Claim C8, amended.  The frame loop reads the MASK bit only to decide
whether to unmask: a single-frame text message with MASK = 0 (any payload
shorter than 126 bytes) is processed exactly like a masked one, with the
payload bytes taken as-is, and its payload is enqueued into the command
queue. -/
theorem C8_unmasked_not_rejected (p : List Nat) (hlen : p.length < 126) :
    processWSFrames (129 :: p.length :: p) [] = [p] := by
  unfold processWSFrames
  simp only [List.length_cons]
  show processWSBuffer ((p.length + 2) + 1) (129 :: p.length :: p) [] = [p]
  rw [show processWSBuffer ((p.length + 2) + 1) (129 :: p.length :: p) []
      = match wsReadFrame (129 :: p.length :: p) with
        | none => []
        | some (opcode, payload, rest) =>
          if opcode == 8 then []
          else if opcode == 1 then processWSBuffer (p.length + 2) rest ([] ++ [payload])
          else processWSBuffer (p.length + 2) rest [] from rfl]
  rw [wsReadFrame_unmasked_text p hlen]
  simp [processWSBuffer_empty]

/-- Claim C8, witness: the amended theorem applied to the unmasked two-byte
payload `[104, 105]`. -/
theorem C8_witness :
    processWSFrames (129 :: [104, 105].length :: [104, 105]) [] = [[104, 105]] :=
  C8_unmasked_not_rejected [104, 105] (by decide)

/-- Claim C9, code-bug evidence.  The response loop of the tick entry point
never reads `message_list_sent_byte_stream_size_max`: the bytes written are
the full encoding of every translated message for every capacity, and with
capacity 0 and a single 26-byte message the loop writes 26 bytes, exceeding
the capacity. -/
theorem C9_capacity_ignored :
    (∀ msgs c1 c2, dllUpdateBuildResponse msgs c1 = dllUpdateBuildResponse msgs c2)
    ∧ (dllUpdateBuildResponse [List.replicate 26 0] 0).1 = 26
    ∧ ¬ ((dllUpdateBuildResponse [List.replicate 26 0] 0).1 ≤ 0) :=
  ⟨fun _ _ _ => rfl, by decide, by decide⟩

/-- Claim C10, counterexample.  An absolute (non-Step) message carrying NaN
refutes the claimed clamp: NaN fails both range checks of
`ProcessStepControl` and NaN is stored in both the struct field and the scalar
array slot — a value outside `[0, 1]`. -/
theorem C10_counterexample :
    (processStepControl false FpVal.nan zeroSlot).field = FpVal.nan
    ∧ (processStepControl false FpVal.nan zeroSlot).slot = FpVal.nan
    ∧ (FpVal.nan).inUnitInterval = false :=
  ⟨rfl, rfl, rfl⟩

/-- Claim C10, amended.  For every step-control variable, an incoming message
carrying an absolute value (Step flag not set) that is not NaN is clamped to
`[0, 1]` before being stored, and the clamped value is written to both the
struct field and the scalar array slot; a NaN absolute value fails both range
checks and NaN is stored in both locations. -/
theorem C10_absolute_clamp_unless_nan (v : FpVal) (s : StepSlot) (hv : v ≠ .nan) :
    (processStepControl false v s).field = clampNewValue v
    ∧ (processStepControl false v s).slot = (processStepControl false v s).field
    ∧ ((processStepControl false v s).field).inUnitInterval = true := by
  refine ⟨rfl, rfl, ?_⟩
  simpa [processStepControl] using clampNewValue_inUnit_of_ne_nan v hv

/-- Claim C10, witness: the amended theorem applied to the out-of-range
absolute value `1.5`, which is stored as `1.0` in both locations. -/
theorem C10_witness :
    (processStepControl false (FpVal.finite (3/2)) zeroSlot).field
        = clampNewValue (.finite (3/2))
    ∧ (processStepControl false (FpVal.finite (3/2)) zeroSlot).slot
        = (processStepControl false (FpVal.finite (3/2)) zeroSlot).field
    ∧ ((processStepControl false (FpVal.finite (3/2)) zeroSlot).field).inUnitInterval
        = true :=
  C10_absolute_clamp_unless_nan (.finite (3/2)) zeroSlot (by decide)

end AeroflyBridge
